import Mathlib

/-!
Shallow embedding of the live-analytics streaming and aggregation engine
(`liveAnalyticsShared.ts`, `liveAnalyticsNormalizer.ts`, `liveAnalytics.ts`,
`liveAnalyticsSynthetic.ts`, `liveAnalyticsKafka.ts`, and the metric catalog
from `shared/types/domain.ts`), together with theorems settling the frozen
claims about it.

Modelling conventions:
 -  JavaScript numbers are modelled as exact rationals (`ℚ`).  The claims under
    study are about the algorithms (branch priority, rounding formulas, epsilon
    comparisons, ordering), not about IEEE-754 rounding error; every concrete
    counterexample below uses dyadic values on which the floating-point program
    computes the same answers exactly.
 -  `Math.round x` is `⌊x + 1/2⌋` (ECMA round-half-up), `Math.floor` is `⌊·⌋`.
 -  Transcendental or externally-defined functions that the code calls
    (`Math.sin`, `Number(string)`, `Date.parse`) are threaded through a `JsEnv`
    record of abstract functions; no claim depends on their concrete values.
 -  Millisecond timestamps stay as rationals.  The code renders them with
    `Date.toISOString`, which is injective on milliseconds, so equalities and
    inequalities of `generatedAt` transfer verbatim.
 -  Events arriving as `undefined` / `null` / strings / booleans are modelled
    by the `RawValue` universe, which is what JSON parsing plus the field
    accesses in the two normalizers can actually produce.
-/

namespace LiveAnalytics

/-- Abstract interface to the JavaScript builtins used by the code:
`msin` is `Math.sin`, `jsNum` is `Number(s)` on non-whitespace strings
(`none` models `NaN` and non-finite results), `dateParse` is `Date.parse`
(`none` models `NaN`). -/
structure JsEnv where
  msin : ℚ → ℚ
  jsNum : String → Option ℚ
  dateParse : String → Option ℚ

/-- `Math.round`: round half toward positive infinity. -/
def jsRound (q : ℚ) : ℤ := ⌊q + 1/2⌋

/-- `Math.round(q * 100) / 100`, the two-decimal rounding used throughout. -/
def round2 (q : ℚ) : ℚ := (jsRound (q * 100) : ℚ) / 100

/-- `roundMagnitude` from `liveAnalyticsShared.ts`:
`Math.round(Math.abs(value) * 100) / 100`. -/
def roundMagnitude (value : ℚ) : ℚ := (jsRound (|value| * 100) : ℚ) / 100

/-- ECMA `Number.prototype.toFixed(1)`: sign first, then the nonnegative part
rounded to one decimal, ties toward the larger value. -/
def toFixed1 (q : ℚ) : String :=
  let sign := if q < 0 then "-" else ""
  let n := (jsRound (|q| * 10)).toNat
  sign ++ toString (n / 10) ++ "." ++ toString (n % 10)

/-- `formatNumber` from `liveAnalyticsShared.ts`. -/
def formatNumber (value : ℚ) : String :=
  if |value| ≥ 1000000 then toFixed1 (value / 1000000) ++ "M"
  else if |value| ≥ 1000 then toFixed1 (value / 1000) ++ "K"
  else if value.den = 1 then toString value.num
  else toFixed1 value

inductive MetricFormat
  | currency | percentage | duration | count
deriving DecidableEq

inductive AnomalyStatus
  | ok | warning | critical
deriving DecidableEq

inductive BreachSide
  | upper | lower
deriving DecidableEq

inductive TrendDirection
  | up | down | steady
deriving DecidableEq

/-- `LiveMetricThresholds` from `shared/types/domain.ts`. -/
structure LiveMetricThresholds where
  upperWarning : Option ℚ := none
  upperCritical : Option ℚ := none
  lowerWarning : Option ℚ := none
  lowerCritical : Option ℚ := none
deriving DecidableEq

/-- `LiveMetricAnomaly` from `shared/types/domain.ts`. -/
structure LiveMetricAnomaly where
  status : AnomalyStatus
  breachedThreshold : Option BreachSide
  thresholdValue : Option ℚ
  message : String
  magnitude : ℚ
deriving DecidableEq

/-- `LiveMetricTrendPoint`; the code stores the timestamp as an ISO-8601
string, an injective image of the milliseconds kept here. -/
structure LiveMetricTrendPoint where
  timestamp : ℚ
  value : ℚ
deriving DecidableEq

/-- `LiveMetric` from `shared/types/domain.ts` (`anomaly` may be `null`). -/
structure LiveMetric where
  id : String
  label : String
  unit : String
  format : MetricFormat
  value : ℚ
  delta : ℚ
  direction : TrendDirection
  trend : List LiveMetricTrendPoint
  thresholds : Option LiveMetricThresholds
  anomaly : Option LiveMetricAnomaly
deriving DecidableEq

/-- `LiveAnalyticsSnapshot`; `generatedAt` keeps the milliseconds that the
code renders through `toISOString`. -/
structure LiveAnalyticsSnapshot where
  generatedAt : ℚ
  windowSeconds : ℚ
  metrics : List LiveMetric
  narrative : String
deriving DecidableEq

/-- `StreamEvent` from `liveAnalyticsTypes.ts`. -/
structure StreamEvent where
  metricId : String
  timestamp : ℚ
  value : ℚ
deriving DecidableEq

/-- `LiveMetricDefinition` from `shared/types/domain.ts`.  `directionBias` is
the optional literal union `up | down`. -/
structure LiveMetricDefinition where
  id : String
  label : String
  unit : String
  format : MetricFormat
  baseline : ℚ
  amplitude : ℚ
  volatility : ℚ
  wavePeriod : ℚ
  narrativeFocus : String
  phase : Option ℚ := none
  floor : Option ℚ := none
  directionBias : Option BreachSide := none
  thresholds : Option LiveMetricThresholds := none
deriving DecidableEq

/-- `LiveMetricMetadata`, the catalog projection of a definition. -/
structure LiveMetricMetadata where
  id : String
  label : String
  unit : String
  format : MetricFormat
  narrativeFocus : String
  thresholds : Option LiveMetricThresholds := none
deriving DecidableEq

/-- The four-entry `liveMetricDefinitions` catalog, verbatim from
`shared/types/domain.ts` (`directionBias` up is `.upper`, down is `.lower`). -/
def liveMetricDefinitions : List LiveMetricDefinition :=
  [ { id := "network_spend_velocity"
    , label := "Network Spend Velocity"
    , unit := "USD/min"
    , format := .currency
    , baseline := 42000000
    , amplitude := 3200000
    , volatility := 1800000
    , wavePeriod := 18
    , phase := some (21/10)
    , narrativeFocus := "portfolio spend acceleration"
    , thresholds := some { upperWarning := some 45000000, upperCritical := some 52000000 } }
  , { id := "fraud_block_rate"
    , label := "Fraud Block Rate"
    , unit := "bps"
    , format := .percentage
    , baseline := 82
    , amplitude := 6
    , volatility := 3
    , wavePeriod := 12
    , phase := some (56/10)
    , directionBias := some .upper
    , narrativeFocus := "fraud interception efficiency"
    , thresholds := some { lowerWarning := some 70, lowerCritical := some 60 } }
  , { id := "authorization_latency"
    , label := "Authorization Latency"
    , unit := "ms"
    , format := .duration
    , baseline := 280
    , amplitude := 68
    , volatility := 36
    , wavePeriod := 16
    , phase := some (314/100)
    , floor := some 120
    , directionBias := some .lower
    , narrativeFocus := "payment flow responsiveness"
    , thresholds := some { upperWarning := some 320, upperCritical := some 420 } }
  , { id := "signal_activation"
    , label := "Signal Activation Velocity"
    , unit := "signals/hr"
    , format := .count
    , baseline := 148
    , amplitude := 22
    , volatility := 18
    , wavePeriod := 10
    , narrativeFocus := "ecosystem insight activation"
    , thresholds := some { lowerWarning := some 120, lowerCritical := some 90 } } ]

/-- `liveMetricCatalog`, the metadata projection. -/
def liveMetricCatalog : List LiveMetricMetadata :=
  liveMetricDefinitions.map fun d =>
    { id := d.id, label := d.label, unit := d.unit, format := d.format
    , narrativeFocus := d.narrativeFocus, thresholds := d.thresholds }

/-- `liveMetricMetadataById.get` (the catalog ids are distinct, so the JS
`Map` lookup is `find?`). -/
def liveMetricMetadataById (id : String) : Option LiveMetricMetadata :=
  liveMetricCatalog.find? fun e => e.id == id

/-- `syntheticById.get` from `liveAnalyticsSynthetic.ts`. -/
def liveMetricDefinitionById (id : String) : Option LiveMetricDefinition :=
  liveMetricDefinitions.find? fun d => d.id == id

/-- `EPSILON` from `liveAnalyticsShared.ts`. -/
def EPSILON : ℚ := 1/10000

/-- `resolveDirection` from `liveAnalyticsShared.ts`. -/
def resolveDirection (delta : ℚ) : TrendDirection :=
  if |delta| ≤ EPSILON then .steady
  else if delta > 0 then .up else .down

/-- One candidate of `determineClosestThreshold`. -/
structure ThresholdGap where
  value : ℚ
  gap : ℚ
deriving DecidableEq

/-- Comparator of `determineClosestThreshold`: ascending gap. -/
def gapLe (a b : ThresholdGap) : Bool := decide (a.gap ≤ b.gap)

/-- The configured-threshold candidate list of `determineClosestThreshold`,
in its declaration order. -/
def thresholdCandidates (t : LiveMetricThresholds) : List ℚ :=
  [t.upperWarning, t.upperCritical, t.lowerWarning, t.lowerCritical].filterMap id

/-- `determineClosestThreshold` from `liveAnalyticsShared.ts`: candidates in
declaration order, diffs by absolute distance, stable sort by gap, head. -/
def determineClosestThreshold (value : ℚ) (t : LiveMetricThresholds) : Option ThresholdGap :=
  let diffs := (thresholdCandidates t).map fun c => ThresholdGap.mk c |c - value|
  (diffs.mergeSort gapLe).head?

/-- The guard `x !== undefined && value >= x` of the two upper-threshold
branches of `evaluateAnomaly`. -/
def checkUpper (threshold : Option ℚ) (value : ℚ) : Option ℚ :=
  match threshold with
  | some th => if value ≥ th then some th else none
  | none => none

/-- The guard `x !== undefined && value <= x` of the two lower-threshold
branches of `evaluateAnomaly`. -/
def checkLower (threshold : Option ℚ) (value : ℚ) : Option ℚ :=
  match threshold with
  | some th => if value ≤ th then some th else none
  | none => none

/-- `evaluateAnomaly` from `liveAnalyticsShared.ts`, with the early returns of
the source rendered as nested matches in the same order. -/
def evaluateAnomaly (value : ℚ) (thresholds : Option LiveMetricThresholds) : LiveMetricAnomaly :=
  match thresholds with
  | none =>
    { status := .ok, breachedThreshold := none, thresholdValue := none
    , message := "No guardrails configured", magnitude := 0 }
  | some t =>
    match checkUpper t.upperCritical value with
    | some uc =>
      { status := .critical, breachedThreshold := some .upper, thresholdValue := some uc
      , message := "Above critical ceiling (" ++ formatNumber uc ++ ")"
      , magnitude := roundMagnitude (value - uc) }
    | none =>
    match checkLower t.lowerCritical value with
    | some lc =>
      { status := .critical, breachedThreshold := some .lower, thresholdValue := some lc
      , message := "Below critical floor (" ++ formatNumber lc ++ ")"
      , magnitude := roundMagnitude (lc - value) }
    | none =>
    match checkUpper t.upperWarning value with
    | some uw =>
      { status := .warning, breachedThreshold := some .upper, thresholdValue := some uw
      , message := "Tracking above watch band (" ++ formatNumber uw ++ ")"
      , magnitude := roundMagnitude (value - uw) }
    | none =>
    match checkLower t.lowerWarning value with
    | some lw =>
      { status := .warning, breachedThreshold := some .lower, thresholdValue := some lw
      , message := "Tracking below watch band (" ++ formatNumber lw ++ ")"
      , magnitude := roundMagnitude (lw - value) }
    | none =>
      match determineClosestThreshold value t with
      | some closest =>
        { status := .ok, breachedThreshold := none, thresholdValue := some closest.value
        , message := "Within healthy band (±" ++ formatNumber closest.gap ++ ")"
        , magnitude := closest.gap }
      | none =>
        { status := .ok, breachedThreshold := none, thresholdValue := none
        , message := "Within healthy band", magnitude := 0 }

/-- `severityScore` from `liveAnalyticsShared.ts`: `|delta|` when the anomaly
is `null`, else status weight plus magnitude plus `|delta|`. -/
def severityScore (m : LiveMetric) : ℚ :=
  match m.anomaly with
  | none => |m.delta|
  | some a =>
    (if a.status = .critical then 1000 else if a.status = .warning then 500 else 0)
      + a.magnitude + |m.delta|

/-- Comparator `(a, b) => severityScore(b) - severityScore(a)`: descending
severity, stable (V8 sort and `mergeSort` are both stable). -/
def severityLe (a b : LiveMetric) : Bool := decide (severityScore b ≤ severityScore a)

/-- `metadata?.narrativeFocus ?? metric.label.toLowerCase()` as used by
`composeNarrative`. -/
def narrativeFocusOf (m : LiveMetric) : String :=
  match liveMetricMetadataById m.id with
  | some meta => meta.narrativeFocus
  | none => m.label.toLower

/-- `buildPhrase` from `liveAnalyticsShared.ts`. -/
def buildPhrase (metric : LiveMetric) (focus : String) : String :=
  let directionWord :=
    if metric.direction = .down then "softened"
    else if metric.direction = .steady then "held steady" else "climbed"
  let anomalyPhrase : Option String :=
    match metric.anomaly with
    | some a =>
      if a.status ≠ .ok then
        let severity := if a.status = .critical then "triggered" else "nudged"
        let bound := match a.thresholdValue with
          | some tv => formatNumber tv
          | none => ""
        let boundary := if a.breachedThreshold = some .lower then "floor" else "ceiling"
        let descriptor := if bound ≠ "" then (bound ++ " " ++ metric.unit).trim else "threshold"
        some (severity ++ " the " ++ boundary ++ " (" ++ descriptor ++ ") for " ++ focus)
      else none
    | none => none
  match anomalyPhrase with
  | some p => p
  | none =>
    let change := formatNumber |metric.delta|
    (directionWord ++ " " ++ change
      ++ (if metric.unit ≠ "" then " " ++ metric.unit else "") ++ " for " ++ focus).trim

/-- `composeNarrative` from `liveAnalyticsShared.ts`.  On the empty list the
JS `find` callback never runs and the `!primary` guard returns the fixed
sentence, matched here by the `[]` branch. -/
def composeNarrative (metrics : List LiveMetric) : String :=
  match metrics.mergeSort severityLe with
  | [] => "Live telemetry steady across monitored signals."
  | primary :: rest =>
    match (primary :: rest).find? fun m => m.id != primary.id with
    | none => "Live telemetry " ++ buildPhrase primary (narrativeFocusOf primary) ++ "."
    | some s =>
      "Live telemetry " ++ buildPhrase primary (narrativeFocusOf primary) ++ " while "
        ++ buildPhrase s (narrativeFocusOf s) ++ "."

/-!  The event normalizers.  `RawValue` is the universe of values a raw event
field can hold after JSON parsing (or schema-registry decoding): a finite
number, a non-finite number (`NaN` / `Infinity`, `typeof` still `number`),
a string, a boolean, `null`, the absent field (`undefined`), a JSON array,
or a plain JSON object.  An array is carried as its JavaScript string
conversion (its elements joined by commas), which is all `Number(array)`
inspects: `Number([]) = 0`, `Number([7]) = 7`, `Number([1,2]) = NaN`.  A
plain object converts to the string `[object Object]`, so `Number` of it is
always `NaN`; both have `typeof` `object` and are truthy. -/

inductive RawValue
  | num (q : ℚ)
  | nonfinite
  | str (s : String)
  | boolv (b : Bool)
  | vnull
  | absent
  | arrv (s : String)
  | objv
deriving DecidableEq

/-- `RawStreamEvent` from `liveAnalyticsTypes.ts`: every recognised field
spelling, each possibly absent. -/
structure RawStreamEvent where
  metricId : RawValue := .absent
  metric_id : RawValue := .absent
  metricID : RawValue := .absent
  timestamp : RawValue := .absent
  timestampMs : RawValue := .absent
  timestamp_ms : RawValue := .absent
  eventTime : RawValue := .absent
  value : RawValue := .absent
  metricValue : RawValue := .absent
  valueNumeric : RawValue := .absent
deriving DecidableEq

/-- JavaScript `Number(v)` on the modelled universe; `none` is `NaN`.
`Number` of a whitespace-only string is `0`, otherwise strings go through the
abstract `jsNum`; an array coerces through its string conversion exactly like
the corresponding string, and a plain object is `NaN`. -/
def jsNumber (env : JsEnv) : RawValue → Option ℚ
  | .num q => some q
  | .nonfinite => none
  | .str s => if s.data.all Char.isWhitespace then some 0 else env.jsNum s
  | .boolv b => some (if b then 1 else 0)
  | .vnull => some 0
  | .absent => none
  | .arrv s => if s.data.all Char.isWhitespace then some 0 else env.jsNum s
  | .objv => none

/-- `coerceString` from `liveAnalyticsNormalizer.ts`. -/
def coerceString : RawValue → Option String
  | .str s => if s.length > 0 then some s else none
  | _ => none

/-- `coerceTimestamp` from `liveAnalyticsNormalizer.ts`: finite numbers pass
through, nonempty strings go to `Date.parse`, everything else is `null`. -/
def coerceTimestamp (env : JsEnv) : RawValue → Option ℚ
  | .num q => some q
  | .str s => if s.length > 0 then env.dateParse s else none
  | _ => none

/-- The timestamp coercion of the module-local normalizer in
`liveAnalytics.ts`: a string goes to `Date.parse`, a finite number passes
through, anything else is `null`. -/
def localTimestamp (env : JsEnv) : RawValue → Option ℚ
  | .str s => env.dateParse s
  | .num q => some q
  | _ => none

/-- The value coercion of the module-local normalizer: the value itself when
it is a finite number, else `Number(value)` followed by the `Number.isFinite`
check. -/
def localValue (env : JsEnv) : RawValue → Option ℚ
  | .num q => some q
  | .nonfinite => none
  | v => jsNumber env v

/-- `coerceNumber` from `liveAnalyticsNormalizer.ts`: finite numbers pass
through, nonempty strings go through `Number` with a finiteness check. -/
def coerceNumber (env : JsEnv) : RawValue → Option ℚ
  | .num q => some q
  | .str s => if s.length > 0 then jsNumber env (.str s) else none
  | _ => none

/-- The metric-id resolution chain of the exported normalizer:
`coerceString(metricId) ?? coerceString(metric_id) ?? coerceString(metricID)`. -/
def resolvedMetricId (r : RawStreamEvent) : Option String :=
  coerceString r.metricId <|> coerceString r.metric_id <|> coerceString r.metricID

/-- JS falsiness of the running `timestamp` variable: `null` or `0`. -/
def tsFalsy : Option ℚ → Bool
  | none => true
  | some q => q == 0

/-- The timestamp resolution chain of the exported normalizer: each stage runs
only while the running value is falsy (the code writes `if (!timestamp)`), and
the final falsy check rejects both `null` and `0`. -/
def resolvedTimestamp (env : JsEnv) (r : RawStreamEvent) : Option ℚ :=
  let t1 := coerceTimestamp env r.timestamp
  let t2 := if tsFalsy t1 then coerceTimestamp env r.timestampMs else t1
  let t3 := if tsFalsy t2 then coerceTimestamp env r.timestamp_ms else t2
  let t4 := if tsFalsy t3 then coerceTimestamp env r.eventTime else t3
  if tsFalsy t4 then none else t4

/-- The value resolution chain of the exported normalizer:
`coerceNumber(value) ?? coerceNumber(metricValue) ?? coerceNumber(valueNumeric)`.
(The subsequent `Number.isFinite` re-check in the source is redundant because
`coerceNumber` only returns finite numbers.) -/
def resolvedValue (env : JsEnv) (r : RawStreamEvent) : Option ℚ :=
  coerceNumber env r.value <|> coerceNumber env r.metricValue <|> coerceNumber env r.valueNumeric

/-- `normalizeRawEvent` from `liveAnalyticsNormalizer.ts`. -/
def normalizeRawEvent (env : JsEnv) : Option RawStreamEvent → Option StreamEvent
  | none => none
  | some c =>
    match resolvedMetricId c with
    | none => none
    | some metricId =>
      if (liveMetricMetadataById metricId).isSome then
        match resolvedTimestamp env c with
        | none => none
        | some ts =>
          match resolvedValue env c with
          | none => none
          | some v => some { metricId := metricId, timestamp := ts, value := v }
      else none

/-- The module-local `normalizeRawEvent` inside `liveAnalytics.ts`: only the
canonical spellings `metricId` / `timestamp` / `value`, `typeof`-string check
on the id, and `Number(parsed.value)` coercion of the value. -/
def normalizeRawEventLocal (env : JsEnv) : Option RawStreamEvent → Option StreamEvent
  | none => none
  | some p =>
    match p.metricId with
    | .str mid =>
      if (liveMetricMetadataById mid).isSome then
        match localTimestamp env p.timestamp with
        | none => none
        | some ts =>
          if ts = 0 then none
          else
            match localValue env p.value with
            | none => none
            | some v => some { metricId := mid, timestamp := ts, value := v }
      else none
    | _ => none

/-!  The Kafka per-metric buffer (`liveAnalyticsKafka.ts`). -/

/-- The sort comparator `(a, b) => a.timestamp - b.timestamp`. -/
def tsLe (a b : StreamEvent) : Bool := decide (a.timestamp ≤ b.timestamp)

/-- Non-decreasing timestamps, the ordering invariant of a metric buffer. -/
def TsSorted (l : List StreamEvent) : Prop :=
  List.Pairwise (fun a b => a.timestamp ≤ b.timestamp) l

/-- `ingestEvent` from `liveAnalyticsKafka.ts`: push, stable sort ascending by
timestamp, and `splice(0, length - max)` dropping the front overflow. -/
def ingestEvent (maxEvents : ℕ) (buffer : List StreamEvent) (event : StreamEvent) :
    List StreamEvent :=
  let bucket := (buffer ++ [event]).mergeSort tsLe
  if bucket.length > maxEvents then bucket.drop (bucket.length - maxEvents) else bucket

/-- A whole arrival sequence ingested into an initially empty buffer. -/
def ingestAll (maxEvents : ℕ) (events : List StreamEvent) : List StreamEvent :=
  events.foldl (ingestEvent maxEvents) []

/-!  The synthetic fallback generator (`liveAnalyticsSynthetic.ts`). -/

/-- `TREND_POINTS`. -/
def TREND_POINTS : ℕ := 10

/-- `DEFAULT_WINDOW_SECONDS`. -/
def DEFAULT_WINDOW_SECONDS : ℚ := 120

/-- `CACHE_TTL_MS`. -/
def CACHE_TTL_MS : ℚ := 3000

/-- `pseudoRandom` from `liveAnalyticsSynthetic.ts`:
`x = Math.sin(seed) * 10000; return x - Math.floor(x)`.  The seed it is ever
called with is the tick alone; nothing about the metric enters. -/
def pseudoRandom (env : JsEnv) (seed : ℚ) : ℚ :=
  let x := env.msin seed * 10000
  x - ⌊x⌋

/-- The noise factor `(pseudoRandom(tick) - 0.5) * 2` of `computeValue`. -/
def noiseOf (env : JsEnv) (tick : ℚ) : ℚ := (pseudoRandom env tick - 1/2) * 2

/-- The `directionalBias` immediately-invoked closure of `computeValue`
(`0.12` is exact in the source text; the double nearest to it behaves
identically for every claim below). -/
def directionalBias (env : JsEnv) (d : LiveMetricDefinition) (tick : ℤ) : ℚ :=
  match d.directionBias with
  | none => 0
  | some bias =>
    let biasAmplitude := d.amplitude * (12/100)
    let modifier := env.msin (((tick : ℚ) + 11) / (d.wavePeriod * 4)) * biasAmplitude
    if bias = .upper then |modifier| else -|modifier|

/-- `computeValue` from `liveAnalyticsSynthetic.ts`. -/
def computeValue (env : JsEnv) (d : LiveMetricDefinition) (tick : ℤ) : ℚ :=
  let sinusoid := d.amplitude * env.msin (((tick : ℚ) + d.phase.getD 0) / d.wavePeriod)
  let random := noiseOf env (tick : ℚ) * d.volatility
  let total := d.baseline + sinusoid + random + directionalBias env d tick
  match d.floor with
  | some f => max f total
  | none => total

/-- The un-clamped waveform; `computeValue` is this value clamped below by the
configured floor. -/
def waveOf (env : JsEnv) (d : LiveMetricDefinition) (tick : ℤ) : ℚ :=
  d.baseline + d.amplitude * env.msin (((tick : ℚ) + d.phase.getD 0) / d.wavePeriod)
    + noiseOf env (tick : ℚ) * d.volatility + directionalBias env d tick

/-- JS `array.at(-2)`: the second-to-last element when it exists. -/
def atNeg2 {α : Type} (l : List α) : Option α :=
  if l.length ≥ 2 then l[l.length - 2]? else none

/-- `buildTrend` from `liveAnalyticsSynthetic.ts`.  The loop runs `index` from
9 down to 0, so offset `o := 9 - index` runs 0..9 in push order: the point at
the current tick is pushed first. -/
def buildTrend (env : JsEnv) (d : LiveMetricDefinition) (tick : ℤ) (issuedAt : ℚ) :
    List LiveMetricTrendPoint :=
  (List.range TREND_POINTS).map fun (o : ℕ) =>
    { timestamp := issuedAt - (o : ℚ) * 15000
    , value := round2 (computeValue env d (tick - (o : ℤ))) }

/-- `buildStaticMetric` from `liveAnalyticsSynthetic.ts`. -/
def buildStaticMetric (id : String) : LiveMetric :=
  match liveMetricMetadataById id with
  | none =>
    { id := id, label := id, unit := "", format := .count, value := 0, delta := 0
    , direction := .steady, trend := [], thresholds := none
    , anomaly := some { status := .ok, breachedThreshold := none, thresholdValue := none
                      , message := "No data", magnitude := 0 } }
  | some metadata =>
    { id := metadata.id, label := metadata.label, unit := metadata.unit
    , format := metadata.format, value := 0, delta := 0, direction := .steady
    , trend := [], thresholds := metadata.thresholds
    , anomaly := some (evaluateAnomaly 0 metadata.thresholds) }

/-- `generateSyntheticSnapshot` from `liveAnalyticsSynthetic.ts`; `issuedAt`
is the `Date.now()` read at the start of the call. -/
def generateSyntheticSnapshot (env : JsEnv) (windowSeconds : ℚ) (issuedAt : ℚ) :
    LiveAnalyticsSnapshot :=
  let tick : ℤ := ⌊issuedAt / 15000⌋
  let metrics := liveMetricCatalog.map fun metadata =>
    match liveMetricDefinitionById metadata.id with
    | none => buildStaticMetric metadata.id
    | some d =>
      let trend := buildTrend env d tick issuedAt
      let latest := ((trend.getLast?).map LiveMetricTrendPoint.value).getD d.baseline
      let previous := ((atNeg2 trend).map LiveMetricTrendPoint.value).getD latest
      let delta := round2 (latest - previous)
      { id := metadata.id, label := metadata.label, unit := metadata.unit
      , format := metadata.format, value := round2 latest, delta := delta
      , direction := resolveDirection delta, trend := trend
      , thresholds := metadata.thresholds
      , anomaly := some (evaluateAnomaly latest metadata.thresholds) }
  { generatedAt := issuedAt, windowSeconds := windowSeconds, metrics := metrics
  , narrative := composeNarrative metrics }

/-!  The snapshot builder (`buildSnapshot`, identical in `liveAnalytics.ts`
and the Kafka-enabled variant). -/

/-- The per-metric trend pipeline of `buildSnapshot`: stable sort ascending by
timestamp, clip to `[latest - windowSeconds*1000, latest]`, then `slice(-10)`. -/
def trendEventsOf (ws : ℚ) (group : List StreamEvent) : List StreamEvent :=
  let sorted := group.mergeSort tsLe
  match sorted.getLast? with
  | none => []
  | some last =>
    let windowStart := last.timestamp - ws * 1000
    let clipped := sorted.filter fun e => decide (e.timestamp ≥ windowStart)
    clipped.drop (clipped.length - TREND_POINTS)

/-- `trendEvents.at(-1)?.value ?? sorted.at(-1)!.value` of `buildSnapshot`. -/
def latestValueOf (ws : ℚ) (group : List StreamEvent) : ℚ :=
  match (trendEventsOf ws group).getLast? with
  | some e => e.value
  | none => (((group.mergeSort tsLe).getLast?).map StreamEvent.value).getD 0

/-- `trendEvents.length >= 2 ? trendEvents.at(-2)!.value : latestValue`. -/
def previousValueOf (ws : ℚ) (group : List StreamEvent) : ℚ :=
  match atNeg2 (trendEventsOf ws group) with
  | some e => e.value
  | none => latestValueOf ws group

/-- The body of the catalog `map` in `buildSnapshot` for a metric whose event
group is nonempty. -/
def buildLiveMetric (ws : ℚ) (metadata : LiveMetricMetadata) (group : List StreamEvent) :
    LiveMetric :=
  let trendEvents := trendEventsOf ws group
  let latestValue := latestValueOf ws group
  let previousValue := previousValueOf ws group
  let delta := round2 (latestValue - previousValue)
  { id := metadata.id, label := metadata.label, unit := metadata.unit
  , format := metadata.format, value := round2 latestValue, delta := delta
  , direction := resolveDirection delta
  , trend := trendEvents.map fun e => { timestamp := e.timestamp, value := round2 e.value }
  , thresholds := metadata.thresholds
  , anomaly := some (evaluateAnomaly latestValue metadata.thresholds) }

/-- `sorted.at(-1)!.timestamp` of a nonempty group. -/
def latestTimestampOf (group : List StreamEvent) : ℚ :=
  (((group.mergeSort tsLe).getLast?).map StreamEvent.timestamp).getD 0

/-- One step of the catalog traversal in `buildSnapshot`: appends the metric
for this catalog entry and updates the `globalLatest` / `globalEarliest`
accumulators exactly as the loop body does. -/
def buildSnapshotStep (ws : ℚ) (events : List StreamEvent) (fallbackMetrics : List LiveMetric)
    (acc : List LiveMetric × ℚ × ℚ) (metadata : LiveMetricMetadata) :
    List LiveMetric × ℚ × ℚ :=
  let (ms, gLatest, gEarliest) := acc
  let group := events.filter fun e => e.metricId == metadata.id
  if group.isEmpty then
    let fm := (fallbackMetrics.find? fun m => m.id == metadata.id).getD
      (buildStaticMetric metadata.id)
    (ms ++ [fm], gLatest, gEarliest)
  else
    let latestTimestamp := latestTimestampOf group
    let trendEvents := trendEventsOf ws group
    let gLatest := if latestTimestamp > gLatest then latestTimestamp else gLatest
    let gEarliest := match trendEvents.head? with
      | some e0 => min gEarliest e0.timestamp
      | none => gEarliest
    (ms ++ [buildLiveMetric ws metadata group], gLatest, gEarliest)

/-- `buildSnapshot` from `liveAnalytics.ts`: synthetic fallback when no event
survived normalization, else the catalog traversal with derived
`generatedAt` / `windowSeconds` and the composed narrative.  (The fallback
`getD` mirrors the non-null assertion `fallbackById.get(metadata.id)!`, which
never fires because the synthetic snapshot covers the whole catalog.) -/
def buildSnapshot (env : JsEnv) (ws : ℚ) (events : List StreamEvent) (now : ℚ) :
    LiveAnalyticsSnapshot :=
  let fallback := generateSyntheticSnapshot env ws now
  if events.isEmpty then fallback
  else
    let res := liveMetricCatalog.foldl (buildSnapshotStep ws events fallback.metrics)
      ([], 0, now)
    let metrics := res.1
    let globalLatest := res.2.1
    let globalEarliest := res.2.2
    let generatedAt := if globalLatest > 0 then globalLatest else fallback.generatedAt
    let derivedWindow :=
      if globalLatest > 0 then max 1 ((jsRound ((globalLatest - globalEarliest) / 1000) : ℚ))
      else fallback.windowSeconds
    { generatedAt := generatedAt, windowSeconds := derivedWindow, metrics := metrics
    , narrative := composeNarrative metrics }

/-!  The adapter chain and the snapshot cache (`getLiveAnalyticsSnapshot`). -/

/-- `loadStreamEvents` as a function of what the three source adapters yield
for this build (Kafka buffer, remote stream fetch, local file), each already
normalized, with failures and disabled adapters modelled as their observable
result: an empty list.  The chain takes the first nonempty yield; the file
reader is last and its result is returned even when empty. -/
def loadStreamEvents (kafkaEvents remoteEvents fileEvents : List StreamEvent) :
    List StreamEvent :=
  if !kafkaEvents.isEmpty then kafkaEvents
  else if !remoteEvents.isEmpty then remoteEvents
  else fileEvents

/-- The module-level snapshot cache of `liveAnalytics.ts`. -/
structure SnapshotCache where
  loadedAt : ℚ
  snapshot : Option LiveAnalyticsSnapshot
deriving DecidableEq

/-- The initial cache value `{ loadedAt: 0, snapshot: null }`. -/
def initialCache : SnapshotCache := { loadedAt := 0, snapshot := none }

/-- `getLiveAnalyticsSnapshot`: serve the cached snapshot while
`now - loadedAt < CACHE_TTL_MS`, else build from the events the adapters
yield at this call and overwrite the cache. -/
def getLiveAnalyticsSnapshot (env : JsEnv) (ws : ℚ) (events : List StreamEvent)
    (now : ℚ) (cache : SnapshotCache) : LiveAnalyticsSnapshot × SnapshotCache :=
  match cache.snapshot with
  | some snap =>
    if now - cache.loadedAt < CACHE_TTL_MS then (snap, cache)
    else
      let snapshot := buildSnapshot env ws events now
      (snapshot, { loadedAt := now, snapshot := some snapshot })
  | none =>
    let snapshot := buildSnapshot env ws events now
    (snapshot, { loadedAt := now, snapshot := some snapshot })

/-!  Generic helper lemmas about the stable sorts used by the code. -/

theorem mergeSort_single {α : Type} (le : α → α → Bool) (a : α) :
    [a].mergeSort le = [a] :=
  List.perm_singleton.mp (List.mergeSort_perm [a] le)

/-- The head of a mergeSort by a transitive total comparator is a member that
compares below every element of the input. -/
theorem mergeSort_head_min {α : Type} {le : α → α → Bool}
    (htrans : ∀ a b c, le a b = true → le b c = true → le a c = true)
    (htot : ∀ a b, (le a b || le b a) = true)
    {l : List α} {x : α} {rest : List α} (h : l.mergeSort le = x :: rest) :
    x ∈ l ∧ ∀ y ∈ l, le x y = true := by
  have hperm := List.mergeSort_perm l le
  have hsorted := @List.sorted_mergeSort _ le htrans htot l
  rw [h] at hperm hsorted
  refine ⟨hperm.mem_iff.mp (List.mem_cons_self x rest), ?_⟩
  intro y hy
  rcases List.mem_cons.mp (hperm.mem_iff.mpr hy) with rfl | hmem
  · have := htot y y
    rcases Bool.or_eq_true_iff.mp this with h1 | h1 <;> exact h1
  · exact (List.pairwise_cons.mp hsorted).1 y hmem

/-- In a list sorted by `le`, the first element satisfying `p` compares below
every member satisfying `p`. -/
theorem sorted_find?_le {α : Type} {le : α → α → Bool} {p : α → Bool}
    (hrefl : ∀ a, le a a = true) :
    ∀ {l : List α} {s : α},
      List.Pairwise (fun a b => le a b = true) l → l.find? p = some s →
      ∀ m ∈ l, p m = true → le s m = true := by
  intro l
  induction l with
  | nil => intro s _ hfind; simp at hfind
  | cons x xs ih =>
    intro s hsorted hfind m hm hpm
    by_cases hx : p x
    · rw [List.find?_cons_of_pos _ hx] at hfind
      cases hfind
      rcases List.mem_cons.mp hm with rfl | hmem
      · exact hrefl m
      · exact (List.pairwise_cons.mp hsorted).1 m hmem
    · rw [List.find?_cons_of_neg _ hx] at hfind
      rcases List.mem_cons.mp hm with rfl | hmem
      · exact absurd hpm hx
      · exact ih (List.pairwise_cons.mp hsorted).2 hfind m hmem hpm

theorem tsLe_trans : ∀ a b c, tsLe a b = true → tsLe b c = true → tsLe a c = true := by
  intro a b c hab hbc
  simp only [tsLe, decide_eq_true_eq] at *
  exact le_trans hab hbc

theorem tsLe_total : ∀ a b, (tsLe a b || tsLe b a) = true := by
  intro a b
  simp only [tsLe, Bool.or_eq_true, decide_eq_true_eq]
  exact le_total _ _

theorem severityLe_trans :
    ∀ a b c, severityLe a b = true → severityLe b c = true → severityLe a c = true := by
  intro a b c hab hbc
  simp only [severityLe, decide_eq_true_eq] at *
  exact le_trans hbc hab

theorem severityLe_total : ∀ a b, (severityLe a b || severityLe b a) = true := by
  intro a b
  simp only [severityLe, Bool.or_eq_true, decide_eq_true_eq]
  exact le_total _ _

theorem severityLe_refl : ∀ a, severityLe a a = true := by
  intro a
  simp [severityLe]

theorem gapLe_trans : ∀ a b c, gapLe a b = true → gapLe b c = true → gapLe a c = true := by
  intro a b c hab hbc
  simp only [gapLe, decide_eq_true_eq] at *
  exact le_trans hab hbc

theorem gapLe_total : ∀ a b, (gapLe a b || gapLe b a) = true := by
  intro a b
  simp only [gapLe, Bool.or_eq_true, decide_eq_true_eq]
  exact le_total _ _

/-!  Arithmetic helper lemmas. -/

theorem jsRound_eq {q : ℚ} {n : ℤ} (h1 : (n : ℚ) ≤ q + 1/2) (h2 : q + 1/2 < n + 1) :
    jsRound q = n := by
  unfold jsRound
  exact Int.floor_eq_iff.mpr ⟨h1, h2⟩

theorem roundMagnitude_eq_round2_abs (v : ℚ) : roundMagnitude v = round2 |v| := by
  simp [roundMagnitude, round2]

theorem checkUpper_none {o : Option ℚ} {v : ℚ} (h : ∀ u, o = some u → v < u) :
    checkUpper o v = none := by
  cases o with
  | none => rfl
  | some u =>
    rw [checkUpper, if_neg (not_le.mpr (h u rfl))]

theorem checkLower_none {o : Option ℚ} {v : ℚ} (h : ∀ u, o = some u → u < v) :
    checkLower o v = none := by
  cases o with
  | none => rfl
  | some u =>
    rw [checkLower, if_neg (not_le.mpr (h u rfl))]

theorem checkUpper_some {o : Option ℚ} {v u : ℚ} (ho : o = some u) (h : v ≥ u) :
    checkUpper o v = some u := by
  subst ho
  rw [checkUpper, if_pos h]

theorem checkLower_some {o : Option ℚ} {v u : ℚ} (ho : o = some u) (h : v ≤ u) :
    checkLower o v = some u := by
  subst ho
  rw [checkLower, if_pos h]

/-- C3: `evaluateAnomaly` checks thresholds in the fixed priority order
upperCritical (value ≥ threshold), then lowerCritical (value ≤ threshold),
then upperWarning, then lowerWarning, returning the first breached band; with
thresholds upperWarning 45000000 / upperCritical 52000000 and value 53000000
it returns status critical, breachedThreshold upper, magnitude 1000000, and
with thresholds lowerWarning 70 / lowerCritical 60 and value 65 it returns
status warning, breachedThreshold lower. -/
theorem evaluateAnomaly_priority_order :
    (∀ (v : ℚ) (t : LiveMetricThresholds) (uc : ℚ),
      t.upperCritical = some uc → v ≥ uc →
      evaluateAnomaly v (some t) =
        { status := .critical, breachedThreshold := some .upper, thresholdValue := some uc
        , message := "Above critical ceiling (" ++ formatNumber uc ++ ")"
        , magnitude := roundMagnitude (v - uc) }) ∧
    (∀ (v : ℚ) (t : LiveMetricThresholds) (lc : ℚ),
      (∀ u, t.upperCritical = some u → v < u) →
      t.lowerCritical = some lc → v ≤ lc →
      evaluateAnomaly v (some t) =
        { status := .critical, breachedThreshold := some .lower, thresholdValue := some lc
        , message := "Below critical floor (" ++ formatNumber lc ++ ")"
        , magnitude := roundMagnitude (lc - v) }) ∧
    (∀ (v : ℚ) (t : LiveMetricThresholds) (uw : ℚ),
      (∀ u, t.upperCritical = some u → v < u) →
      (∀ u, t.lowerCritical = some u → u < v) →
      t.upperWarning = some uw → v ≥ uw →
      evaluateAnomaly v (some t) =
        { status := .warning, breachedThreshold := some .upper, thresholdValue := some uw
        , message := "Tracking above watch band (" ++ formatNumber uw ++ ")"
        , magnitude := roundMagnitude (v - uw) }) ∧
    (∀ (v : ℚ) (t : LiveMetricThresholds) (lw : ℚ),
      (∀ u, t.upperCritical = some u → v < u) →
      (∀ u, t.lowerCritical = some u → u < v) →
      (∀ u, t.upperWarning = some u → v < u) →
      t.lowerWarning = some lw → v ≤ lw →
      evaluateAnomaly v (some t) =
        { status := .warning, breachedThreshold := some .lower, thresholdValue := some lw
        , message := "Tracking below watch band (" ++ formatNumber lw ++ ")"
        , magnitude := roundMagnitude (lw - v) }) ∧
    ((evaluateAnomaly 53000000
        (some { upperWarning := some 45000000, upperCritical := some 52000000 })).status
        = .critical ∧
     (evaluateAnomaly 53000000
        (some { upperWarning := some 45000000, upperCritical := some 52000000 })).breachedThreshold
        = some .upper ∧
     (evaluateAnomaly 53000000
        (some { upperWarning := some 45000000, upperCritical := some 52000000 })).magnitude
        = 1000000) ∧
    ((evaluateAnomaly 65
        (some { lowerWarning := some 70, lowerCritical := some 60 })).status = .warning ∧
     (evaluateAnomaly 65
        (some { lowerWarning := some 70, lowerCritical := some 60 })).breachedThreshold
        = some .lower) := by
  have hUC : ∀ (v : ℚ) (t : LiveMetricThresholds) (uc : ℚ),
      t.upperCritical = some uc → v ≥ uc →
      evaluateAnomaly v (some t) =
        { status := .critical, breachedThreshold := some .upper, thresholdValue := some uc
        , message := "Above critical ceiling (" ++ formatNumber uc ++ ")"
        , magnitude := roundMagnitude (v - uc) } := by
    intro v t uc huc hge
    simp only [evaluateAnomaly, checkUpper_some huc hge]
  have hLC : ∀ (v : ℚ) (t : LiveMetricThresholds) (lc : ℚ),
      (∀ u, t.upperCritical = some u → v < u) →
      t.lowerCritical = some lc → v ≤ lc →
      evaluateAnomaly v (some t) =
        { status := .critical, breachedThreshold := some .lower, thresholdValue := some lc
        , message := "Below critical floor (" ++ formatNumber lc ++ ")"
        , magnitude := roundMagnitude (lc - v) } := by
    intro v t lc hnoUC hlc hle
    simp only [evaluateAnomaly, checkUpper_none hnoUC, checkLower_some hlc hle]
  have hUW : ∀ (v : ℚ) (t : LiveMetricThresholds) (uw : ℚ),
      (∀ u, t.upperCritical = some u → v < u) →
      (∀ u, t.lowerCritical = some u → u < v) →
      t.upperWarning = some uw → v ≥ uw →
      evaluateAnomaly v (some t) =
        { status := .warning, breachedThreshold := some .upper, thresholdValue := some uw
        , message := "Tracking above watch band (" ++ formatNumber uw ++ ")"
        , magnitude := roundMagnitude (v - uw) } := by
    intro v t uw hnoUC hnoLC huw hge
    simp only [evaluateAnomaly, checkUpper_none hnoUC, checkLower_none hnoLC,
      checkUpper_some huw hge]
  refine ⟨hUC, hLC, hUW, ?_, ?_, ?_⟩
  · intro v t lw hnoUC hnoLC hnoUW hlw hle
    simp only [evaluateAnomaly, checkUpper_none hnoUC, checkLower_none hnoLC,
      checkUpper_none hnoUW, checkLower_some hlw hle]
  · have h := hUC 53000000
      { upperWarning := some 45000000, upperCritical := some 52000000 } 52000000 rfl
      (by norm_num)
    rw [h]
    refine ⟨rfl, rfl, ?_⟩
    show roundMagnitude ((53000000 : ℚ) - 52000000) = 1000000
    have habs : |(53000000 : ℚ) - 52000000| * 100 = 100000000 := by norm_num
    rw [roundMagnitude, habs, jsRound_eq (n := 100000000) (by norm_num) (by norm_num)]
    norm_num
  · have heq : evaluateAnomaly 65 (some { lowerWarning := some 70, lowerCritical := some 60 }) =
        { status := .warning, breachedThreshold := some .lower, thresholdValue := some 70
        , message := "Tracking below watch band (" ++ formatNumber 70 ++ ")"
        , magnitude := roundMagnitude ((70 : ℚ) - 65) } := by
      simp only [evaluateAnomaly, checkUpper, checkLower]
      norm_num
    rw [heq]
    exact ⟨rfl, rfl⟩

/-- C3 witness: the first conjunct applied at the first concrete vector. -/
theorem evaluateAnomaly_priority_order_witness :
    ({ upperWarning := some 45000000, upperCritical := some 52000000 }
        : LiveMetricThresholds).upperCritical = some 52000000 ∧
    (53000000 : ℚ) ≥ 52000000 ∧
    evaluateAnomaly 53000000
        (some { upperWarning := some 45000000, upperCritical := some 52000000 }) =
      { status := .critical, breachedThreshold := some .upper
      , thresholdValue := some 52000000
      , message := "Above critical ceiling (" ++ formatNumber 52000000 ++ ")"
      , magnitude := roundMagnitude ((53000000 : ℚ) - 52000000) } :=
  ⟨rfl, by norm_num,
    evaluateAnomaly_priority_order.1 53000000
      { upperWarning := some 45000000, upperCritical := some 52000000 } 52000000 rfl
      (by norm_num)⟩

/-- What `determineClosestThreshold` returns: the exact (unrounded) distance
to a configured threshold that minimises the distance, or nothing when no
threshold is configured. -/
theorem determineClosestThreshold_spec (v : ℚ) (t : LiveMetricThresholds) :
    (∀ c, determineClosestThreshold v t = some c →
      c.gap = |c.value - v| ∧ c.value ∈ thresholdCandidates t ∧
      ∀ u ∈ thresholdCandidates t, c.gap ≤ |u - v|) ∧
    (determineClosestThreshold v t = none ↔ thresholdCandidates t = []) := by
  constructor
  · intro c hc
    simp only [determineClosestThreshold] at hc
    set diffs := (thresholdCandidates t).map fun u => ThresholdGap.mk u |u - v| with hdiffs
    cases hms : diffs.mergeSort gapLe with
    | nil => rw [hms] at hc; simp at hc
    | cons x rest =>
      rw [hms] at hc
      simp only [List.head?_cons, Option.some.injEq] at hc
      subst hc
      obtain ⟨hmem, hmin⟩ := mergeSort_head_min gapLe_trans gapLe_total hms
      obtain ⟨u, hu, huc⟩ := List.mem_map.mp hmem
      refine ⟨?_, ?_, ?_⟩
      · rw [← huc]
      · rw [← huc]; exact hu
      · intro w hw
        have hwmem : ThresholdGap.mk w |w - v| ∈ diffs :=
          List.mem_map.mpr ⟨w, hw, rfl⟩
        have := hmin _ hwmem
        simpa [gapLe] using this
  · simp only [determineClosestThreshold]
    constructor
    · intro h
      have hnil : ((thresholdCandidates t).map fun u => ThresholdGap.mk u |u - v|).mergeSort
          gapLe = [] := by
        cases hms : ((thresholdCandidates t).map fun u => ThresholdGap.mk u |u - v|).mergeSort
            gapLe with
        | nil => rfl
        | cons x rest => rw [hms] at h; simp at h
      have : ((thresholdCandidates t).map fun u => ThresholdGap.mk u |u - v|).length = 0 := by
        rw [← @List.length_mergeSort _ gapLe, hnil]
        rfl
      have := List.eq_nil_of_length_eq_zero this
      exact List.map_eq_nil_iff.mp this
    · intro h
      rw [h]
      simp [List.mergeSort_nil]

/-- C4 (amended): in every breached band the magnitude is
`round2 |value - threshold|`; when the status is ok the magnitude is the
exact, unrounded distance to a nearest configured threshold, and 0 when no
threshold is configured. -/
theorem evaluateAnomaly_magnitude_spec :
    (∀ (v : ℚ), (evaluateAnomaly v none).magnitude = 0) ∧
    (∀ (v : ℚ) (t : LiveMetricThresholds) (uc : ℚ),
      checkUpper t.upperCritical v = some uc →
      (evaluateAnomaly v (some t)).magnitude = round2 |v - uc|) ∧
    (∀ (v : ℚ) (t : LiveMetricThresholds) (lc : ℚ),
      checkUpper t.upperCritical v = none → checkLower t.lowerCritical v = some lc →
      (evaluateAnomaly v (some t)).magnitude = round2 |v - lc|) ∧
    (∀ (v : ℚ) (t : LiveMetricThresholds) (uw : ℚ),
      checkUpper t.upperCritical v = none → checkLower t.lowerCritical v = none →
      checkUpper t.upperWarning v = some uw →
      (evaluateAnomaly v (some t)).magnitude = round2 |v - uw|) ∧
    (∀ (v : ℚ) (t : LiveMetricThresholds) (lw : ℚ),
      checkUpper t.upperCritical v = none → checkLower t.lowerCritical v = none →
      checkUpper t.upperWarning v = none → checkLower t.lowerWarning v = some lw →
      (evaluateAnomaly v (some t)).magnitude = round2 |v - lw|) ∧
    (∀ (v : ℚ) (t : LiveMetricThresholds),
      checkUpper t.upperCritical v = none → checkLower t.lowerCritical v = none →
      checkUpper t.upperWarning v = none → checkLower t.lowerWarning v = none →
      ((determineClosestThreshold v t = none ∧ thresholdCandidates t = [] ∧
          (evaluateAnomaly v (some t)).magnitude = 0) ∨
       (∃ c, determineClosestThreshold v t = some c ∧
          (evaluateAnomaly v (some t)).magnitude = |c.value - v| ∧
          c.value ∈ thresholdCandidates t ∧
          ∀ u ∈ thresholdCandidates t, |c.value - v| ≤ |u - v|))) := by
  refine ⟨?_, ?_, ?_, ?_, ?_, ?_⟩
  · intro v; rfl
  · intro v t uc h
    simp only [evaluateAnomaly, h]
    rw [roundMagnitude_eq_round2_abs]
  · intro v t lc h1 h2
    simp only [evaluateAnomaly, h1, h2]
    rw [roundMagnitude_eq_round2_abs, abs_sub_comm]
  · intro v t uw h1 h2 h3
    simp only [evaluateAnomaly, h1, h2, h3]
    rw [roundMagnitude_eq_round2_abs]
  · intro v t lw h1 h2 h3 h4
    simp only [evaluateAnomaly, h1, h2, h3, h4]
    rw [roundMagnitude_eq_round2_abs, abs_sub_comm]
  · intro v t h1 h2 h3 h4
    cases hc : determineClosestThreshold v t with
    | none =>
      left
      refine ⟨rfl, (determineClosestThreshold_spec v t).2.mp hc, ?_⟩
      simp only [evaluateAnomaly, h1, h2, h3, h4, hc]
    | some c =>
      right
      obtain ⟨hgap, hmem, hmin⟩ := (determineClosestThreshold_spec v t).1 c hc
      refine ⟨c, rfl, ?_, hmem, fun u hu => hgap ▸ hmin u hu⟩
      simp only [evaluateAnomaly, h1, h2, h3, h4, hc]
      exact hgap

/-- C4 witness: the upper-critical conjunct applied at value 53000000 against
threshold 52000000. -/
theorem evaluateAnomaly_magnitude_spec_witness :
    checkUpper ({ upperWarning := some 45000000, upperCritical := some 52000000 }
        : LiveMetricThresholds).upperCritical 53000000 = some 52000000 ∧
    (evaluateAnomaly 53000000
        (some { upperWarning := some 45000000, upperCritical := some 52000000 })).magnitude
      = round2 |(53000000 : ℚ) - 52000000| := by
  have hcu : checkUpper ({ upperWarning := some 45000000, upperCritical := some 52000000 }
      : LiveMetricThresholds).upperCritical 53000000 = some 52000000 := by
    simp only [checkUpper]
    norm_num
  exact ⟨hcu, evaluateAnomaly_magnitude_spec.2.1 53000000
    { upperWarning := some 45000000, upperCritical := some 52000000 } 52000000 hcu⟩

/-- C4 counterexample: with thresholds upperWarning 1 and value 1/8 the status
is ok and the magnitude is the unrounded distance 7/8, while
`round2 |value - threshold|` is 22/25 = 0.88; the values are exact dyadic
doubles, on which the JavaScript program computes the same numbers. -/
theorem evaluateAnomaly_magnitude_counterexample :
    (evaluateAnomaly (1/8) (some { upperWarning := some 1 })).status = .ok ∧
    (evaluateAnomaly (1/8) (some { upperWarning := some 1 })).magnitude = 7/8 ∧
    round2 |(1 : ℚ)/8 - 1| = 22/25 ∧ ((7 : ℚ)/8) ≠ 22/25 := by
  have hms := mergeSort_single gapLe (ThresholdGap.mk 1 |1 - (1 : ℚ)/8|)
  have hdet : determineClosestThreshold (1/8) { upperWarning := some 1 } =
      some (ThresholdGap.mk 1 |1 - (1 : ℚ)/8|) := by
    simp only [determineClosestThreshold, thresholdCandidates, List.filterMap, List.map,
      hms, List.head?_cons]
  have heval : evaluateAnomaly (1/8) (some { upperWarning := some 1 }) =
      { status := .ok, breachedThreshold := none
      , thresholdValue := some (ThresholdGap.mk 1 |1 - (1 : ℚ)/8|).value
      , message := "Within healthy band (±"
          ++ formatNumber (ThresholdGap.mk 1 |1 - (1 : ℚ)/8|).gap ++ ")"
      , magnitude := (ThresholdGap.mk 1 |1 - (1 : ℚ)/8|).gap } := by
    have h1 : checkUpper ({ upperWarning := some 1 } : LiveMetricThresholds).upperCritical
        (1/8) = none := rfl
    have h2 : checkLower ({ upperWarning := some 1 } : LiveMetricThresholds).lowerCritical
        (1/8) = none := rfl
    have h3 : checkUpper ({ upperWarning := some 1 } : LiveMetricThresholds).upperWarning
        (1/8) = none := by
      simp only [checkUpper]
      norm_num
    have h4 : checkLower ({ upperWarning := some 1 } : LiveMetricThresholds).lowerWarning
        (1/8) = none := rfl
    simp only [evaluateAnomaly, h1, h2, h3, h4, hdet]
  rw [heval]
  have habs1 : |1 - (1 : ℚ)/8| = 7/8 := by
    rw [abs_of_nonneg (by norm_num : (0 : ℚ) ≤ 1 - 1/8)]
    norm_num
  have habs0 : |(1 : ℚ)/8 - 1| = 7/8 := by
    rw [abs_sub_comm]
    exact habs1
  refine ⟨rfl, habs1, ?_, by norm_num⟩
  rw [habs0, round2, jsRound_eq (n := 88) (by norm_num) (by norm_num)]
  norm_num

/-- `resolveDirection` characterised by the epsilon comparisons. -/
theorem resolveDirection_iff (d : ℚ) :
    (resolveDirection d = .steady ↔ |d| ≤ 1/10000) ∧
    (resolveDirection d = .up ↔ d > 1/10000) ∧
    (resolveDirection d = .down ↔ d < -(1/10000)) := by
  unfold resolveDirection EPSILON
  by_cases h1 : |d| ≤ 1/10000
  · rw [if_pos h1]
    have hnotup : ¬ d > 1/10000 := by
      have := le_abs_self d
      intro hgt
      linarith
    have hnotdown : ¬ d < -(1/10000) := by
      have := neg_abs_le d
      intro hlt
      linarith
    exact ⟨iff_of_true rfl h1,
      iff_of_false (by decide) hnotup,
      iff_of_false (by decide) hnotdown⟩
  · rw [if_neg h1]
    by_cases h2 : d > 0
    · rw [if_pos h2]
      have habs : |d| = d := abs_of_pos h2
      have hup : d > 1/10000 := by
        rw [habs] at h1
        linarith [not_le.mp h1]
      have hnotdown : ¬ d < -(1/10000) := by
        intro hlt
        linarith
      exact ⟨iff_of_false (by decide) h1,
        iff_of_true rfl hup,
        iff_of_false (by decide) hnotdown⟩
    · rw [if_neg h2]
      have hle : d ≤ 0 := not_lt.mp h2
      have habs : |d| = -d := abs_of_nonpos hle
      have hdown : d < -(1/10000) := by
        rw [habs] at h1
        linarith [not_le.mp h1]
      have hnotup : ¬ d > 1/10000 := by
        intro hgt
        linarith
      exact ⟨iff_of_false (by decide) h1,
        iff_of_false (by decide) hnotup,
        iff_of_true rfl hdown⟩

theorem round2_zero : round2 0 = 0 := by
  rw [round2, jsRound_eq (n := 0) (by norm_num) (by norm_num)]
  norm_num

/-- The trend pipeline of `buildSnapshot` on a one-event group. -/
theorem trendEventsOf_single (ws : ℚ) (e : StreamEvent) :
    trendEventsOf ws [e] = [e] ∨ trendEventsOf ws [e] = [] := by
  unfold trendEventsOf
  rw [mergeSort_single]
  by_cases h0 : (0 : ℚ) ≤ ws
  · left
    have hws : (0 : ℚ) ≤ ws * 1000 := mul_nonneg h0 (by norm_num)
    have hp : e.timestamp ≥ e.timestamp - ws * 1000 := by linarith
    simp [List.filter_cons, hp, h0, TREND_POINTS]
  · right
    have hws : ws * 1000 < 0 := by
      have := not_le.mp h0
      nlinarith
    have hp : ¬ (e.timestamp ≥ e.timestamp - ws * 1000) := by
      intro h
      linarith
    simp [List.filter_cons, hp, h0]

theorem latestValueOf_single (ws : ℚ) (e : StreamEvent) :
    latestValueOf ws [e] = e.value := by
  unfold latestValueOf
  rcases trendEventsOf_single ws e with h | h <;> rw [h]
  · rfl
  · simp only [List.getLast?_nil]
    rw [mergeSort_single]
    rfl

theorem previousValueOf_single (ws : ℚ) (e : StreamEvent) :
    previousValueOf ws [e] = e.value := by
  unfold previousValueOf
  have hnone : atNeg2 (trendEventsOf ws [e]) = none := by
    rcases trendEventsOf_single ws e with h | h <;> rw [h] <;> rfl
  rw [hnone]
  exact latestValueOf_single ws e

/-- C6: for every metric window, delta is the latest trend value minus the
immediately preceding trend value rounded to 2 decimals, direction is steady
exactly when the absolute delta is at most 0.0001, up exactly when the delta
exceeds 0.0001, down exactly when it is below -0.0001; and a window with
exactly one event has delta 0 and steady direction. -/
theorem metricDelta_direction_spec :
    (∀ (ws : ℚ) (metadata : LiveMetricMetadata) (group : List StreamEvent),
      (buildLiveMetric ws metadata group).delta
        = round2 (latestValueOf ws group - previousValueOf ws group) ∧
      (∀ x, (trendEventsOf ws group).getLast? = some x → latestValueOf ws group = x.value) ∧
      (∀ y, atNeg2 (trendEventsOf ws group) = some y → previousValueOf ws group = y.value) ∧
      (atNeg2 (trendEventsOf ws group) = none →
        previousValueOf ws group = latestValueOf ws group) ∧
      ((buildLiveMetric ws metadata group).direction = .steady ↔
        |(buildLiveMetric ws metadata group).delta| ≤ 1/10000) ∧
      ((buildLiveMetric ws metadata group).direction = .up ↔
        (buildLiveMetric ws metadata group).delta > 1/10000) ∧
      ((buildLiveMetric ws metadata group).direction = .down ↔
        (buildLiveMetric ws metadata group).delta < -(1/10000))) ∧
    (∀ (ws : ℚ) (metadata : LiveMetricMetadata) (e : StreamEvent),
      (buildLiveMetric ws metadata [e]).delta = 0 ∧
      (buildLiveMetric ws metadata [e]).direction = .steady) := by
  have hdelta : ∀ (ws : ℚ) (metadata : LiveMetricMetadata) (group : List StreamEvent),
      (buildLiveMetric ws metadata group).delta
        = round2 (latestValueOf ws group - previousValueOf ws group) := by
    intro ws metadata group
    rfl
  have hdir : ∀ (ws : ℚ) (metadata : LiveMetricMetadata) (group : List StreamEvent),
      (buildLiveMetric ws metadata group).direction
        = resolveDirection (buildLiveMetric ws metadata group).delta := by
    intro ws metadata group
    rfl
  constructor
  · intro ws metadata group
    obtain ⟨hsteady, hup, hdown⟩ := resolveDirection_iff (buildLiveMetric ws metadata group).delta
    refine ⟨hdelta ws metadata group, ?_, ?_, ?_, ?_, ?_, ?_⟩
    · intro x hx
      unfold latestValueOf
      rw [hx]
    · intro y hy
      unfold previousValueOf
      rw [hy]
    · intro hnone
      unfold previousValueOf
      rw [hnone]
    · rw [hdir ws metadata group]
      exact hsteady
    · rw [hdir ws metadata group]
      exact hup
    · rw [hdir ws metadata group]
      exact hdown
  · intro ws metadata e
    have hd : (buildLiveMetric ws metadata [e]).delta = 0 := by
      rw [hdelta ws metadata [e], latestValueOf_single, previousValueOf_single]
      simpa using round2_zero
    refine ⟨hd, ?_⟩
    rw [hdir ws metadata [e], hd]
    rw [resolveDirection, if_pos]
    rw [abs_zero]
    norm_num [EPSILON]

/-- C6 witness: the singleton conjunct applied to a concrete one-event
window. -/
theorem metricDelta_direction_spec_witness :
    (buildLiveMetric 120
      { id := "network_spend_velocity", label := "Network Spend Velocity"
      , unit := "USD/min", format := .currency
      , narrativeFocus := "portfolio spend acceleration" }
      [{ metricId := "network_spend_velocity", timestamp := 15000, value := 42000000 }]).delta
      = 0 ∧
    (buildLiveMetric 120
      { id := "network_spend_velocity", label := "Network Spend Velocity"
      , unit := "USD/min", format := .currency
      , narrativeFocus := "portfolio spend acceleration" }
      [{ metricId := "network_spend_velocity", timestamp := 15000, value := 42000000 }]).direction
      = .steady :=
  metricDelta_direction_spec.2 120
    { id := "network_spend_velocity", label := "Network Spend Velocity"
    , unit := "USD/min", format := .currency
    , narrativeFocus := "portfolio spend acceleration" }
    { metricId := "network_spend_velocity", timestamp := 15000, value := 42000000 }

theorem tsSorted_mergeSort (l : List StreamEvent) : TsSorted (l.mergeSort tsLe) := by
  have h := @List.sorted_mergeSort _ tsLe tsLe_trans tsLe_total l
  exact h.imp fun hab => by simpa [tsLe, decide_eq_true_eq] using hab

theorem ingestEvent_eq_drop (maxEvents : ℕ) (buffer : List StreamEvent) (event : StreamEvent) :
    ingestEvent maxEvents buffer event =
      ((buffer ++ [event]).mergeSort tsLe).drop
        (((buffer ++ [event]).mergeSort tsLe).length - maxEvents) := by
  unfold ingestEvent
  by_cases h : ((buffer ++ [event]).mergeSort tsLe).length > maxEvents
  · rw [if_pos h]
  · rw [if_neg h, Nat.sub_eq_zero_of_le (not_lt.mp h), List.drop_zero]

/-- C5: after every ingest, from any prior buffer and in any arrival order,
the buffer is sorted in non-decreasing timestamp order and holds at most the
configured maximum event count, and exactly the front (smallest-timestamp)
elements of the sorted bucket are evicted; consequently a whole arrival
sequence ingested into an empty buffer leaves a sorted buffer of at most the
maximum count, which is what a snapshot build reads. -/
theorem ingest_sorted_bounded :
    (∀ (maxEvents : ℕ) (buffer : List StreamEvent) (event : StreamEvent),
      TsSorted (ingestEvent maxEvents buffer event) ∧
      (ingestEvent maxEvents buffer event).length ≤ maxEvents ∧
      (∃ dropped, (buffer ++ [event]).mergeSort tsLe
          = dropped ++ ingestEvent maxEvents buffer event ∧
        ∀ d ∈ dropped, ∀ k ∈ ingestEvent maxEvents buffer event,
          d.timestamp ≤ k.timestamp)) ∧
    (∀ (maxEvents : ℕ) (events : List StreamEvent),
      TsSorted (ingestAll maxEvents events) ∧
      (ingestAll maxEvents events).length ≤ maxEvents) := by
  have hsingle : ∀ (maxEvents : ℕ) (buffer : List StreamEvent) (event : StreamEvent),
      TsSorted (ingestEvent maxEvents buffer event) ∧
      (ingestEvent maxEvents buffer event).length ≤ maxEvents ∧
      (∃ dropped, (buffer ++ [event]).mergeSort tsLe
          = dropped ++ ingestEvent maxEvents buffer event ∧
        ∀ d ∈ dropped, ∀ k ∈ ingestEvent maxEvents buffer event,
          d.timestamp ≤ k.timestamp) := by
    intro maxEvents buffer event
    have hsorted := tsSorted_mergeSort (buffer ++ [event])
    rw [ingestEvent_eq_drop]
    set sorted := (buffer ++ [event]).mergeSort tsLe with hs
    set n := sorted.length - maxEvents with hn
    refine ⟨hsorted.sublist (List.drop_sublist n sorted), ?_, ?_⟩
    · rw [List.length_drop]
      omega
    · refine ⟨sorted.take n, (List.take_append_drop n sorted).symm, ?_⟩
      have hsplit : TsSorted (sorted.take n ++ sorted.drop n) := by
        rw [List.take_append_drop]
        exact hsorted
      exact (List.pairwise_append.mp hsplit).2.2
  refine ⟨hsingle, ?_⟩
  intro maxEvents events
  have step : ∀ (l : List StreamEvent) (acc : List StreamEvent),
      TsSorted acc ∧ acc.length ≤ maxEvents →
      TsSorted (l.foldl (ingestEvent maxEvents) acc) ∧
      (l.foldl (ingestEvent maxEvents) acc).length ≤ maxEvents := by
    intro l
    induction l with
    | nil => intro acc h; exact h
    | cons x xs ih =>
      intro acc _
      rw [List.foldl_cons]
      exact ih _ ⟨(hsingle maxEvents acc x).1, (hsingle maxEvents acc x).2.1⟩
  exact step events [] ⟨List.Pairwise.nil, Nat.zero_le _⟩

/-- C8: `composeNarrative` of the empty list is the fixed steady-state
sentence (without failing); otherwise the narrative opens with a phrase for a
metric of maximal severity score and, when a metric with a different id
exists, is joined by "while" to a phrase for a maximal-severity metric among
those with a different id. -/
theorem composeNarrative_spec :
    composeNarrative [] = "Live telemetry steady across monitored signals." ∧
    ∀ (m0 : LiveMetric) (ms : List LiveMetric),
      ∃ p, p ∈ m0 :: ms ∧
        (∀ m ∈ m0 :: ms, severityScore m ≤ severityScore p) ∧
        (((∀ m ∈ m0 :: ms, m.id = p.id) ∧
           composeNarrative (m0 :: ms)
             = "Live telemetry " ++ buildPhrase p (narrativeFocusOf p) ++ ".") ∨
         (∃ s, s ∈ m0 :: ms ∧ s.id ≠ p.id ∧
           (∀ m ∈ m0 :: ms, m.id ≠ p.id → severityScore m ≤ severityScore s) ∧
           composeNarrative (m0 :: ms)
             = "Live telemetry " ++ buildPhrase p (narrativeFocusOf p) ++ " while "
               ++ buildPhrase s (narrativeFocusOf s) ++ ".")) := by
  constructor
  · unfold composeNarrative
    rw [List.mergeSort_nil]
  · intro m0 ms
    cases hms : (m0 :: ms).mergeSort severityLe with
    | nil =>
      exfalso
      have hlen := @List.length_mergeSort _ severityLe (m0 :: ms)
      rw [hms] at hlen
      simp at hlen
    | cons p rest =>
      obtain ⟨hp, hmax⟩ := mergeSort_head_min severityLe_trans severityLe_total hms
      have hperm := List.mergeSort_perm (m0 :: ms) severityLe
      rw [hms] at hperm
      have hsorted := @List.sorted_mergeSort _ severityLe
        severityLe_trans severityLe_total (m0 :: ms)
      rw [hms] at hsorted
      refine ⟨p, hp, ?_, ?_⟩
      · intro m hm
        have := hmax m hm
        simpa [severityLe, decide_eq_true_eq] using this
      · cases hfind : (p :: rest).find? (fun m => m.id != p.id) with
        | none =>
          left
          constructor
          · intro m hm
            have hmem : m ∈ p :: rest := hperm.mem_iff.mpr hm
            have := List.find?_eq_none.mp hfind m hmem
            simpa [bne_iff_ne] using this
          · unfold composeNarrative
            rw [hms]
            simp only [hfind]
        | some s =>
          right
          have hsmem : s ∈ m0 :: ms := hperm.mem_iff.mp (List.mem_of_find?_eq_some hfind)
          have hsid : s.id ≠ p.id := by
            have := List.find?_some hfind
            simpa [bne_iff_ne] using this
          refine ⟨s, hsmem, hsid, ?_, ?_⟩
          · intro m hm hmid
            have hmem : m ∈ p :: rest := hperm.mem_iff.mpr hm
            have hpm : (fun m => m.id != p.id) m = true := by
              simpa [bne_iff_ne] using hmid
            have := sorted_find?_le severityLe_refl hsorted hfind m hmem hpm
            simpa [severityLe, decide_eq_true_eq] using this
          · unfold composeNarrative
            rw [hms]
            simp only [hfind]

/-- C8 witness: the nonempty conjunct applied to a concrete one-metric
list. -/
theorem composeNarrative_spec_witness :
    ∃ p, p ∈ [({ id := "x", label := "X", unit := "", format := .count, value := 0
               , delta := 0, direction := .steady, trend := [], thresholds := none
               , anomaly := none } : LiveMetric)] ∧
      (∀ m ∈ [({ id := "x", label := "X", unit := "", format := .count, value := 0
               , delta := 0, direction := .steady, trend := [], thresholds := none
               , anomaly := none } : LiveMetric)], severityScore m ≤ severityScore p) ∧
      (((∀ m ∈ [({ id := "x", label := "X", unit := "", format := .count, value := 0
                 , delta := 0, direction := .steady, trend := [], thresholds := none
                 , anomaly := none } : LiveMetric)], m.id = p.id) ∧
         composeNarrative [({ id := "x", label := "X", unit := "", format := .count
                            , value := 0, delta := 0, direction := .steady, trend := []
                            , thresholds := none, anomaly := none } : LiveMetric)]
           = "Live telemetry " ++ buildPhrase p (narrativeFocusOf p) ++ ".") ∨
       (∃ s, s ∈ [({ id := "x", label := "X", unit := "", format := .count, value := 0
                   , delta := 0, direction := .steady, trend := [], thresholds := none
                   , anomaly := none } : LiveMetric)] ∧ s.id ≠ p.id ∧
         (∀ m ∈ [({ id := "x", label := "X", unit := "", format := .count, value := 0
                  , delta := 0, direction := .steady, trend := [], thresholds := none
                  , anomaly := none } : LiveMetric)],
            m.id ≠ p.id → severityScore m ≤ severityScore s) ∧
         composeNarrative [({ id := "x", label := "X", unit := "", format := .count
                            , value := 0, delta := 0, direction := .steady, trend := []
                            , thresholds := none, anomaly := none } : LiveMetric)]
           = "Live telemetry " ++ buildPhrase p (narrativeFocusOf p) ++ " while "
             ++ buildPhrase s (narrativeFocusOf s) ++ ".")) :=
  composeNarrative_spec.2
    { id := "x", label := "X", unit := "", format := .count, value := 0, delta := 0
    , direction := .steady, trend := [], thresholds := none, anomaly := none } []

theorem append_ne_empty_right (x y : String) (hy : y.length ≠ 0) : x ++ y ≠ "" := by
  intro h
  have hl := congrArg String.length h
  rw [String.length_append] at hl
  have h0 : ("" : String).length = 0 := rfl
  rw [h0] at hl
  omega

theorem composeNarrative_ne_empty (m0 : LiveMetric) (ms : List LiveMetric) :
    composeNarrative (m0 :: ms) ≠ "" := by
  unfold composeNarrative
  cases hms : (m0 :: ms).mergeSort severityLe with
  | nil => decide
  | cons p rest =>
    cases hfind : (p :: rest).find? (fun m => m.id != p.id) with
    | none =>
      simp only [hfind]
      exact append_ne_empty_right _ "." (by decide)
    | some s =>
      simp only [hfind]
      exact append_ne_empty_right _ "." (by decide)

/-- C1: when all three source adapters yield zero events, the adapter chain
yields zero events and the snapshot build returns exactly the synthetic
fallback snapshot, whose metrics list has one entry per catalog metric and
whose narrative is a non-empty string; the build is total, so total data
unavailability never produces an error. -/
theorem allAdaptersEmpty_fallback :
    ∀ (env : JsEnv) (ws : ℚ) (now : ℚ),
      loadStreamEvents [] [] [] = [] ∧
      buildSnapshot env ws [] now = generateSyntheticSnapshot env ws now ∧
      (getLiveAnalyticsSnapshot env ws (loadStreamEvents [] [] []) now initialCache).1
        = generateSyntheticSnapshot env ws now ∧
      (buildSnapshot env ws [] now).metrics.length = liveMetricCatalog.length ∧
      (buildSnapshot env ws [] now).narrative ≠ "" := by
  intro env ws now
  have hbuild : buildSnapshot env ws [] now = generateSyntheticSnapshot env ws now := by
    unfold buildSnapshot
    rfl
  refine ⟨rfl, hbuild, hbuild, ?_, ?_⟩
  · rw [hbuild]
    unfold generateSyntheticSnapshot
    simp
  · rw [hbuild]
    unfold generateSyntheticSnapshot
    simp only
    have hcat : ∃ c cs, liveMetricCatalog = c :: cs := ⟨_, _, rfl⟩
    obtain ⟨c, cs, hcat⟩ := hcat
    rw [hcat, List.map_cons]
    exact composeNarrative_ne_empty _ _

/-- A concrete environment for closed evaluations: a sine that is constantly
zero and string parsers that always fail (`NaN`). -/
def env0 : JsEnv :=
  { msin := fun _ => 0, jsNum := fun _ => none, dateParse := fun _ => none }

theorem falsy_guard_ne_zero {o : Option ℚ} {ts : ℚ}
    (h : (if tsFalsy o then none else o) = some ts) : ts ≠ 0 := by
  intro hzero
  subst hzero
  by_cases hf : tsFalsy o = true
  · rw [if_pos hf] at h
    cases h
  · rw [if_neg hf] at h
    apply hf
    rw [h]
    decide

/-- C2 (amended): the exported `normalizeRawEvent` is total and returns null
exactly when the metric id fails to resolve to a string, the resolved id is
unknown to the catalog, the timestamp chain resolves to nothing — where a
candidate that parses to the falsy value 0 counts as missing — or no value
field yields a finite number; in every other case it returns the canonical
triple, and a resolved timestamp is never 0. -/
theorem normalizeRawEvent_null_iff :
    ∀ (env : JsEnv) (r : RawStreamEvent),
      ((normalizeRawEvent env (some r) = none) ↔
        (resolvedMetricId r = none ∨
         (∃ mid, resolvedMetricId r = some mid ∧ (liveMetricMetadataById mid).isNone) ∨
         resolvedTimestamp env r = none ∨
         resolvedValue env r = none)) ∧
      (∀ mid ts v, resolvedMetricId r = some mid →
        (liveMetricMetadataById mid).isSome →
        resolvedTimestamp env r = some ts → resolvedValue env r = some v →
        normalizeRawEvent env (some r)
          = some { metricId := mid, timestamp := ts, value := v }) ∧
      (∀ ts, resolvedTimestamp env r = some ts → ts ≠ 0) ∧
      normalizeRawEvent env none = none := by
  intro env r
  have optCasesQ : ∀ (o : Option ℚ), o = none ∨ ∃ a, o = some a := by
    intro o
    cases o with
    | none => exact Or.inl rfl
    | some a => exact Or.inr ⟨a, rfl⟩
  have optCasesS : ∀ (o : Option String), o = none ∨ ∃ a, o = some a := by
    intro o
    cases o with
    | none => exact Or.inl rfl
    | some a => exact Or.inr ⟨a, rfl⟩
  have hts0 : ∀ ts, resolvedTimestamp env r = some ts → ts ≠ 0 := by
    intro ts hts
    simp only [resolvedTimestamp] at hts
    exact falsy_guard_ne_zero hts
  rcases optCasesS (resolvedMetricId r) with hmid | ⟨mid, hmid⟩
  · have hres : normalizeRawEvent env (some r) = none := by
      simp only [normalizeRawEvent, hmid]
    refine ⟨?_, ?_, hts0, rfl⟩
    · rw [hres]
      exact ⟨fun _ => Or.inl hmid, fun _ => rfl⟩
    · intro mid ts v hmid2 _ _ _
      rw [hmid] at hmid2
      cases hmid2
  · by_cases hmeta : (liveMetricMetadataById mid).isSome = true
    · rcases optCasesQ (resolvedTimestamp env r) with hts | ⟨ts, hts⟩
      · have hres : normalizeRawEvent env (some r) = none := by
          simp [normalizeRawEvent, hmid, hmeta, hts]
        refine ⟨?_, ?_, hts0, rfl⟩
        · rw [hres]
          exact ⟨fun _ => Or.inr (Or.inr (Or.inl hts)), fun _ => rfl⟩
        · intro mid2 ts v _ _ hts2 _
          rw [hts] at hts2
          cases hts2
      · rcases optCasesQ (resolvedValue env r) with hval | ⟨v, hval⟩
        · have hres : normalizeRawEvent env (some r) = none := by
            simp [normalizeRawEvent, hmid, hmeta, hts, hval]
          refine ⟨?_, ?_, hts0, rfl⟩
          · rw [hres]
            exact ⟨fun _ => Or.inr (Or.inr (Or.inr hval)), fun _ => rfl⟩
          · intro mid2 ts2 v _ _ _ hval2
            rw [hval] at hval2
            cases hval2
        · have hres : normalizeRawEvent env (some r)
              = some { metricId := mid, timestamp := ts, value := v } := by
            simp [normalizeRawEvent, hmid, hmeta, hts, hval]
          refine ⟨?_, ?_, hts0, rfl⟩
          · rw [hres]
            constructor
            · intro h
              cases h
            · intro h
              exfalso
              rcases h with h | ⟨mid2, hmid2, hnone⟩ | h | h
              · rw [hmid] at h
                cases h
              · rw [hmid] at hmid2
                cases hmid2
                rw [Option.isNone_iff_eq_none] at hnone
                rw [hnone] at hmeta
                cases hmeta
              · rw [hts] at h
                cases h
              · rw [hval] at h
                cases h
          · intro mid2 ts2 v2 hmid2 _ hts2 hval2
            rw [hmid] at hmid2
            rw [hts] at hts2
            rw [hval] at hval2
            cases hmid2
            cases hts2
            cases hval2
            exact hres
    · have hres : normalizeRawEvent env (some r) = none := by
        simp only [normalizeRawEvent, hmid, if_neg hmeta]
      refine ⟨?_, ?_, hts0, rfl⟩
      · rw [hres]
        refine ⟨fun _ => Or.inr (Or.inl ⟨mid, hmid, ?_⟩), fun _ => rfl⟩
        rw [Option.isNone_iff_eq_none]
        exact Option.not_isSome_iff_eq_none.mp hmeta
      · intro mid2 ts v hmid2 hmeta2 _ _
        rw [hmid] at hmid2
        cases hmid2
        exact absurd hmeta2 hmeta

/-- C2 witness: the positive conjunct applied to a concrete raw event with a
known metric id, a nonzero numeric timestamp and a numeric value. -/
theorem normalizeRawEvent_null_iff_witness :
    resolvedMetricId { metricId := .str "fraud_block_rate", timestamp := .num 15000
                     , value := .num 82 } = some "fraud_block_rate" ∧
    (liveMetricMetadataById "fraud_block_rate").isSome = true ∧
    resolvedTimestamp env0 { metricId := .str "fraud_block_rate", timestamp := .num 15000
                           , value := .num 82 } = some 15000 ∧
    resolvedValue env0 { metricId := .str "fraud_block_rate", timestamp := .num 15000
                       , value := .num 82 } = some 82 ∧
    normalizeRawEvent env0
      (some { metricId := .str "fraud_block_rate", timestamp := .num 15000
            , value := .num 82 })
      = some { metricId := "fraud_block_rate", timestamp := 15000, value := 82 } := by
  refine ⟨rfl, rfl, ?_, rfl, ?_⟩
  · decide
  · exact (normalizeRawEvent_null_iff env0
      { metricId := .str "fraud_block_rate", timestamp := .num 15000
      , value := .num 82 }).2.1 "fraud_block_rate" 15000 82 rfl rfl (by decide) rfl

/-- C2 counterexample: a raw event whose known metric id, parseable finite
timestamp 0 and finite value satisfy none of the null conditions of the claim,
yet the normalizer returns null, because the code treats the parsed timestamp
0 as falsy. -/
theorem normalizeRawEvent_zero_timestamp_counterexample :
    normalizeRawEvent env0
      (some { metricId := .str "fraud_block_rate", timestamp := .num 0, value := .num 82 })
      = none ∧
    (liveMetricMetadataById "fraud_block_rate").isSome = true ∧
    coerceTimestamp env0 (.num 0) = some 0 ∧
    coerceNumber env0 (.num 82) = some 82 := by
  refine ⟨?_, rfl, rfl, rfl⟩
  decide

theorem string_eq_empty_of_length_zero {s : String} (h : s.length = 0) : s = "" := by
  obtain ⟨l⟩ := s
  have hl : l = [] := by
    apply List.eq_nil_of_length_eq_zero
    simpa [String.length] using h
  rw [hl]

theorem string_length_pos_of_ne_empty {s : String} (h : s ≠ "") : s.length > 0 := by
  by_cases h0 : s.length = 0
  · exact absurd (string_eq_empty_of_length_zero h0) h
  · omega

/-- C10 counterexample: on a raw event that spells the id `metric_id`, the
exported normalizer returns the canonical triple while the module-local one in
`liveAnalytics.ts` returns null; and on a canonical-spelling event whose value
field is the empty JSON array, the module-local one coerces `Number([]) = 0`
and returns a triple with value 0 while the exported one returns null. -/
theorem normalizers_disagree_counterexample :
    normalizeRawEvent env0
      (some { metric_id := .str "fraud_block_rate", timestamp := .num 1000, value := .num 5 })
      = some { metricId := "fraud_block_rate", timestamp := 1000, value := 5 } ∧
    normalizeRawEventLocal env0
      (some { metric_id := .str "fraud_block_rate", timestamp := .num 1000, value := .num 5 })
      = none ∧
    normalizeRawEventLocal env0
      (some { metricId := .str "fraud_block_rate", timestamp := .num 1000
            , value := .arrv "" })
      = some { metricId := "fraud_block_rate", timestamp := 1000, value := 0 } ∧
    normalizeRawEvent env0
      (some { metricId := .str "fraud_block_rate", timestamp := .num 1000
            , value := .arrv "" })
      = none := by
  refine ⟨?_, rfl, ?_, ?_⟩
  · decide
  · decide
  · decide

/-- C10 (amended): the two normalizer implementations agree on raw inputs
that use only the canonical spellings `metricId` / `timestamp` / `value` and
whose value field is not `null`, not a boolean, not the empty string and not
an array (on those the module-local one coerces through `Number` — null and
`[]` to 0, booleans to 0 or 1, a one-element array to the number its string
form parses to — while the exported one returns null; alternate spellings are
read only by the exported one). -/
theorem normalizers_agree_canonical :
    ∀ (env : JsEnv) (r : RawStreamEvent),
      env.dateParse "" = none →
      r.metric_id = .absent → r.metricID = .absent → r.timestampMs = .absent →
      r.timestamp_ms = .absent → r.eventTime = .absent → r.metricValue = .absent →
      r.valueNumeric = .absent → r.value ≠ .vnull → (∀ b, r.value ≠ .boolv b) →
      r.value ≠ .str "" → (∀ s, r.value ≠ .arrv s) →
      normalizeRawEventLocal env (some r) = normalizeRawEvent env (some r) := by
  intro env r hdp h1 h2 h3 h4 h5 h6 h7 hv1 hv2 hv3 hv4
  obtain ⟨mid, mid2, mid3, ts, ts2, ts3, ts4, v, v2, v3⟩ := r
  simp only at h1 h2 h3 h4 h5 h6 h7 hv1 hv2 hv3 hv4
  subst h1 h2 h3 h4 h5 h6 h7
  have tsFalsy_none : tsFalsy none = true := rfl
  have hveq : localValue env v = coerceNumber env v := by
    cases v with
    | num q => rfl
    | nonfinite => rfl
    | str s' =>
      have hne : s' ≠ "" := fun h => hv3 (by rw [h])
      have hlen := string_length_pos_of_ne_empty hne
      simp [localValue, coerceNumber, hlen]
    | boolv b => exact absurd rfl (hv2 b)
    | vnull => exact absurd rfl hv1
    | absent => rfl
    | arrv s' => exact absurd rfl (hv4 s')
    | objv => rfl
  have hvres : resolvedValue env
      { metricId := mid, timestamp := ts, value := v } = coerceNumber env v := by
    simp only [resolvedValue]
    cases hc : coerceNumber env v with
    | none => rfl
    | some q => rfl
  have htres : resolvedTimestamp env
      { metricId := mid, timestamp := ts, value := v }
      = (if tsFalsy (coerceTimestamp env ts) then none else coerceTimestamp env ts) := by
    have hca : coerceTimestamp env RawValue.absent = none := rfl
    by_cases hf : tsFalsy (coerceTimestamp env ts) = true
    · simp only [resolvedTimestamp, hca, hf, if_true, tsFalsy_none]
    · have hf' : tsFalsy (coerceTimestamp env ts) = false := by
        revert hf
        cases tsFalsy (coerceTimestamp env ts) <;> simp
      simp only [resolvedTimestamp, hca, hf', Bool.false_eq_true, if_false]
  have hts1 : localTimestamp env ts = coerceTimestamp env ts := by
    cases ts with
    | num q => rfl
    | str st =>
      by_cases hst : st.length > 0
      · simp [localTimestamp, coerceTimestamp, hst]
      · have : st = "" := string_eq_empty_of_length_zero (by omega)
        subst this
        simp [localTimestamp, coerceTimestamp, hdp]
    | nonfinite => rfl
    | boolv b => rfl
    | vnull => rfl
    | absent => rfl
    | arrv s' => rfl
    | objv => rfl
  cases mid with
  | str s =>
    by_cases hs0 : s.length > 0
    · have hmid : resolvedMetricId { metricId := RawValue.str s, timestamp := ts, value := v }
          = some s := by
        simp [resolvedMetricId, coerceString, hs0]
      by_cases hlook : (liveMetricMetadataById s).isSome = true
      · simp only [normalizeRawEventLocal, normalizeRawEvent, hmid, hlook, if_true,
          hts1, htres, hveq, hvres]
        cases hct : coerceTimestamp env ts with
        | none => rfl
        | some q =>
          by_cases hq : q = 0
          · subst hq
            have hfq : tsFalsy (some (0 : ℚ)) = true := by decide
            rw [hfq]
            simp
          · have hfq : tsFalsy (some q) = false := by
              simp [tsFalsy, hq]
            rw [hfq]
            simp only [Bool.false_eq_true, if_false, if_neg hq]
      · have hlookF : ¬ (liveMetricMetadataById s).isSome = true := hlook
        simp [normalizeRawEventLocal, normalizeRawEvent, hmid, hlookF]
    · have hs : s = "" := string_eq_empty_of_length_zero (by omega)
      subst hs
      have hlookF : (liveMetricMetadataById "").isSome = false := by decide
      have hmid : resolvedMetricId { metricId := RawValue.str "", timestamp := ts, value := v }
          = none := by
        simp [resolvedMetricId, coerceString]
      simp [normalizeRawEventLocal, normalizeRawEvent, hmid, hlookF]
  | num q =>
    simp [normalizeRawEventLocal, normalizeRawEvent, resolvedMetricId, coerceString]
  | nonfinite =>
    simp [normalizeRawEventLocal, normalizeRawEvent, resolvedMetricId, coerceString]
  | boolv b =>
    simp [normalizeRawEventLocal, normalizeRawEvent, resolvedMetricId, coerceString]
  | vnull =>
    simp [normalizeRawEventLocal, normalizeRawEvent, resolvedMetricId, coerceString]
  | absent =>
    simp [normalizeRawEventLocal, normalizeRawEvent, resolvedMetricId, coerceString]
  | arrv s =>
    simp [normalizeRawEventLocal, normalizeRawEvent, resolvedMetricId, coerceString]
  | objv =>
    simp [normalizeRawEventLocal, normalizeRawEvent, resolvedMetricId, coerceString]

/-- C10 witness: the agreement theorem applied to a concrete canonical
event. -/
theorem normalizers_agree_canonical_witness :
    normalizeRawEventLocal env0
      (some { metricId := .str "fraud_block_rate", timestamp := .num 1000, value := .num 5 })
      = normalizeRawEvent env0
      (some { metricId := .str "fraud_block_rate", timestamp := .num 1000, value := .num 5 }) :=
  normalizers_agree_canonical env0
    { metricId := .str "fraud_block_rate", timestamp := .num 1000, value := .num 5 }
    rfl rfl rfl rfl rfl rfl rfl rfl (by intro h; cases h) (by intro b h; cases h)
    (by intro h; cases h) (by intro s h; cases h)

/-- Two synthetic definitions identical except for their metric id. -/
def defA : LiveMetricDefinition :=
  { id := "metric_a", label := "A", unit := "", format := .count, baseline := 10
  , amplitude := 1, volatility := 1, wavePeriod := 1, narrativeFocus := "a" }

/-- Same parameters as `defA` under a different metric id. -/
def defB : LiveMetricDefinition :=
  { id := "metric_b", label := "A", unit := "", format := .count, baseline := 10
  , amplitude := 1, volatility := 1, wavePeriod := 1, narrativeFocus := "a" }

/-- C7 (amended): the synthetic per-metric value at a tick is
`baseline + amplitude*sin((tick+phase)/wavePeriod) + noise(tick)*volatility +
directionalBias`, clamped below by the configured floor, where the noise
factor is `(pseudoRandom(tick) - 0.5) * 2`, lies in `[-1, 1)`, and is a
function of the tick alone: the metric id never enters the computation (no
id-derived seed exists). -/
theorem computeValue_waveform_spec :
    ∀ (env : JsEnv) (d : LiveMetricDefinition) (tick : ℤ),
      computeValue env d tick =
        (match d.floor with
         | some f => max f (waveOf env d tick)
         | none => waveOf env d tick) ∧
      (-1 ≤ noiseOf env (tick : ℚ) ∧ noiseOf env (tick : ℚ) < 1) ∧
      (∀ f, d.floor = some f → f ≤ computeValue env d tick) ∧
      (∀ s, computeValue env { d with id := s } tick = computeValue env d tick) := by
  intro env d tick
  have hfrac : 0 ≤ pseudoRandom env (tick : ℚ) ∧ pseudoRandom env (tick : ℚ) < 1 := by
    simp only [pseudoRandom]
    constructor
    · have := Int.floor_le (env.msin (tick : ℚ) * 10000)
      linarith
    · have := Int.lt_floor_add_one (env.msin (tick : ℚ) * 10000)
      linarith
  refine ⟨rfl, ⟨?_, ?_⟩, ?_, fun s => rfl⟩
  · unfold noiseOf
    linarith [hfrac.1]
  · unfold noiseOf
    linarith [hfrac.2]
  · intro f hf
    unfold computeValue
    rw [hf]
    exact le_max_left _ _

/-- C7 witness: the floor-clamp conjunct applied to the catalog definition of
`authorization_latency`, whose floor is 120. -/
theorem computeValue_waveform_spec_witness :
    ({ id := "authorization_latency", label := "Authorization Latency", unit := "ms"
     , format := .duration, baseline := 280, amplitude := 68, volatility := 36
     , wavePeriod := 16, phase := some (314/100), floor := some 120
     , directionBias := some .lower, narrativeFocus := "payment flow responsiveness"
     , thresholds := some { upperWarning := some 320, upperCritical := some 420 } }
      : LiveMetricDefinition).floor = some 120 ∧
    (120 : ℚ) ≤ computeValue env0
      { id := "authorization_latency", label := "Authorization Latency", unit := "ms"
      , format := .duration, baseline := 280, amplitude := 68, volatility := 36
      , wavePeriod := 16, phase := some (314/100), floor := some 120
      , directionBias := some .lower, narrativeFocus := "payment flow responsiveness"
      , thresholds := some { upperWarning := some 320, upperCritical := some 420 } } 0 :=
  ⟨rfl, (computeValue_waveform_spec env0
    { id := "authorization_latency", label := "Authorization Latency", unit := "ms"
    , format := .duration, baseline := 280, amplitude := 68, volatility := 36
    , wavePeriod := 16, phase := some (314/100), floor := some 120
    , directionBias := some .lower, narrativeFocus := "payment flow responsiveness"
    , thresholds := some { upperWarning := some 320, upperCritical := some 420 } } 0).2.2.1
    120 rfl⟩

/-- C7 counterexample: two definitions that differ only in their metric id
produce identical synthetic values at every tick shown here at a concrete
tick, so the noise cannot be seeded by hashing the metric id. -/
theorem computeValue_id_counterexample :
    computeValue env0 defA 7 = computeValue env0 defB 7 ∧ defA.id ≠ defB.id := by
  refine ⟨rfl, ?_⟩
  decide

/-- C9 (amended): a call finding a cached snapshot younger than the TTL
returns it and leaves the cache unchanged; a call finding the cached snapshot
at least TTL old, or no snapshot, builds a fresh one and overwrites the
cache; hence every returned snapshot is either freshly built at the call time
or cached and younger than the TTL. -/
theorem getLiveAnalyticsSnapshot_cache_spec :
    ∀ (env : JsEnv) (ws : ℚ) (events : List StreamEvent) (now : ℚ) (cache : SnapshotCache),
      (∀ s, cache.snapshot = some s → now - cache.loadedAt < CACHE_TTL_MS →
        getLiveAnalyticsSnapshot env ws events now cache = (s, cache)) ∧
      (∀ s, cache.snapshot = some s → ¬ now - cache.loadedAt < CACHE_TTL_MS →
        getLiveAnalyticsSnapshot env ws events now cache
          = (buildSnapshot env ws events now,
             { loadedAt := now, snapshot := some (buildSnapshot env ws events now) })) ∧
      (cache.snapshot = none →
        getLiveAnalyticsSnapshot env ws events now cache
          = (buildSnapshot env ws events now,
             { loadedAt := now, snapshot := some (buildSnapshot env ws events now) })) ∧
      ((cache.snapshot = some (getLiveAnalyticsSnapshot env ws events now cache).1 ∧
          now - cache.loadedAt < CACHE_TTL_MS ∧
          (getLiveAnalyticsSnapshot env ws events now cache).2 = cache) ∨
       ((getLiveAnalyticsSnapshot env ws events now cache).1
            = buildSnapshot env ws events now ∧
        (getLiveAnalyticsSnapshot env ws events now cache).2
            = { loadedAt := now, snapshot := some (buildSnapshot env ws events now) })) := by
  intro env ws events now cache
  obtain ⟨t, osnap⟩ := cache
  cases osnap with
  | none =>
    refine ⟨?_, ?_, fun _ => rfl, Or.inr ⟨rfl, rfl⟩⟩
    · intro s hs
      cases hs
    · intro s hs
      cases hs
  | some s0 =>
    by_cases httl : now - t < CACHE_TTL_MS
    · have hres : getLiveAnalyticsSnapshot env ws events now ⟨t, some s0⟩
          = (s0, ⟨t, some s0⟩) := by
        simp only [getLiveAnalyticsSnapshot]
        rw [if_pos httl]
      refine ⟨?_, ?_, ?_, ?_⟩
      · intro s hs _
        cases hs
        exact hres
      · intro s hs hno
        exact absurd httl hno
      · intro hs
        cases hs
      · left
        rw [hres]
        exact ⟨rfl, httl, rfl⟩
    · have hres : getLiveAnalyticsSnapshot env ws events now ⟨t, some s0⟩
          = (buildSnapshot env ws events now,
             { loadedAt := now, snapshot := some (buildSnapshot env ws events now) }) := by
        simp only [getLiveAnalyticsSnapshot]
        rw [if_neg httl]
      refine ⟨?_, ?_, ?_, ?_⟩
      · intro s hs hyes
        exact absurd hyes httl
      · intro s hs _
        exact hres
      · intro hs
        cases hs
      · right
        rw [hres]
        exact ⟨rfl, rfl⟩

/-- C9 witness: the cache-hit conjunct applied to a snapshot stored at time 0
and re-requested at time 1. -/
theorem getLiveAnalyticsSnapshot_cache_spec_witness :
    ({ loadedAt := 0, snapshot := some (buildSnapshot env0 120 [] 0) }
        : SnapshotCache).snapshot = some (buildSnapshot env0 120 [] 0) ∧
    (1 : ℚ) - ({ loadedAt := 0, snapshot := some (buildSnapshot env0 120 [] 0) }
        : SnapshotCache).loadedAt < CACHE_TTL_MS ∧
    getLiveAnalyticsSnapshot env0 120 [] 1
        { loadedAt := 0, snapshot := some (buildSnapshot env0 120 [] 0) }
      = (buildSnapshot env0 120 [] 0,
         { loadedAt := 0, snapshot := some (buildSnapshot env0 120 [] 0) }) := by
  have httl : (1 : ℚ) - ({ loadedAt := 0, snapshot := some (buildSnapshot env0 120 [] 0) }
      : SnapshotCache).loadedAt < CACHE_TTL_MS := by
    norm_num [CACHE_TTL_MS]
  exact ⟨rfl, httl,
    (getLiveAnalyticsSnapshot_cache_spec env0 120 [] 1
      { loadedAt := 0, snapshot := some (buildSnapshot env0 120 [] 0) }).1
      (buildSnapshot env0 120 [] 0) rfl httl⟩

/-- C9 counterexample: with the cache populated at time 0, the calls at times
2999 and 3000 are 1 millisecond apart — far below the 3-second TTL — yet the
first returns the cached snapshot built at 0 and the second rebuilds, so
their `generatedAt` values differ. -/
theorem getLiveAnalyticsSnapshot_ttl_counterexample :
    (3000 : ℚ) - 2999 < CACHE_TTL_MS ∧
    ((getLiveAnalyticsSnapshot env0 120 [] 2999
        (getLiveAnalyticsSnapshot env0 120 [] 0 initialCache).2).1).generatedAt = 0 ∧
    ((getLiveAnalyticsSnapshot env0 120 [] 3000
        (getLiveAnalyticsSnapshot env0 120 [] 2999
          (getLiveAnalyticsSnapshot env0 120 [] 0 initialCache).2).2).1).generatedAt
      = 3000 ∧
    ((0 : ℚ) ≠ 3000) := by
  have h0 : (getLiveAnalyticsSnapshot env0 120 [] 0 initialCache).2
      = { loadedAt := 0, snapshot := some (buildSnapshot env0 120 [] 0) } := rfl
  have hA : getLiveAnalyticsSnapshot env0 120 [] 2999
      { loadedAt := 0, snapshot := some (buildSnapshot env0 120 [] 0) }
      = (buildSnapshot env0 120 [] 0,
         { loadedAt := 0, snapshot := some (buildSnapshot env0 120 [] 0) }) := by
    simp only [getLiveAnalyticsSnapshot]
    rw [if_pos (show (2999 : ℚ) - 0 < CACHE_TTL_MS by norm_num [CACHE_TTL_MS])]
  have hB : getLiveAnalyticsSnapshot env0 120 [] 3000
      { loadedAt := 0, snapshot := some (buildSnapshot env0 120 [] 0) }
      = (buildSnapshot env0 120 [] 3000,
         { loadedAt := 3000, snapshot := some (buildSnapshot env0 120 [] 3000) }) := by
    simp only [getLiveAnalyticsSnapshot]
    rw [if_neg (show ¬ ((3000 : ℚ) - 0 < CACHE_TTL_MS) by norm_num [CACHE_TTL_MS])]
  have hgen : ∀ (t : ℚ), (buildSnapshot env0 120 [] t).generatedAt = t := fun t => rfl
  refine ⟨by norm_num [CACHE_TTL_MS], ?_, ?_, by norm_num⟩
  · rw [h0, hA]
    exact hgen 0
  · rw [h0, hA, hB]
    exact hgen 3000

/-- C1 witness: the fallback theorem applied at a concrete environment,
window and time. -/
theorem allAdaptersEmpty_fallback_witness :
    loadStreamEvents [] [] [] = [] ∧
    buildSnapshot env0 120 [] 0 = generateSyntheticSnapshot env0 120 0 ∧
    (getLiveAnalyticsSnapshot env0 120 (loadStreamEvents [] [] []) 0 initialCache).1
      = generateSyntheticSnapshot env0 120 0 ∧
    (buildSnapshot env0 120 [] 0).metrics.length = liveMetricCatalog.length ∧
    (buildSnapshot env0 120 [] 0).narrative ≠ "" :=
  allAdaptersEmpty_fallback env0 120 0

/-- C5 witness: the whole-sequence conjunct applied to a concrete two-event
arrival sequence. -/
theorem ingest_sorted_bounded_witness :
    TsSorted (ingestAll 25
      [ { metricId := "authorization_latency", timestamp := 2, value := 280 }
      , { metricId := "authorization_latency", timestamp := 1, value := 320 } ]) ∧
    (ingestAll 25
      [ { metricId := "authorization_latency", timestamp := 2, value := 280 }
      , { metricId := "authorization_latency", timestamp := 1, value := 320 } ]).length
      ≤ 25 :=
  ingest_sorted_bounded.2 25
    [ { metricId := "authorization_latency", timestamp := 2, value := 280 }
    , { metricId := "authorization_latency", timestamp := 1, value := 320 } ]

end LiveAnalytics
